import Mathlib

/-!
Shallow embedding of the Telegram insurance-bot conversation controller
(`src/session/UserSession.ts`, `src/session/SessionStorage.ts`,
`src/handlers/step_configs.ts`, `src/handlers/process_document.ts`,
`src/handlers/confirm_data.ts`, `src/handlers/send_policy.ts`,
`src/routes/webhook.ts`).

Collaborator calls (Telegram transport, the OpenAI agent, the Mindee
extraction service, PDF generation) are modelled as per-message oracles:
each inbound message comes with the outcome every collaborator call would
produce during its handling.  `sendMessage` calls are collected into an
event list instead of performing transport.
-/

/-! ## JavaScript string primitives used by the handlers -/

/-- Whitespace recognised by `String.prototype.trim` (restricted to the ASCII
whitespace characters that can actually occur in the bot's strings). -/
def isJsWhitespace (c : Char) : Bool :=
  c = ' ' || c = '\t' || c = '\n' || c = '\r' || c = '\x0b' || c = '\x0c'

/-- JS `s.trim()`: drop whitespace from both ends. -/
def jsTrim (s : String) : String :=
  ⟨((s.data.dropWhile isJsWhitespace).reverse.dropWhile isJsWhitespace).reverse⟩

/-- JS `s.toLowerCase()` (ASCII case folding, which covers the inputs the
handlers compare against). -/
def jsToLower (s : String) : String :=
  ⟨s.data.map Char.toLower⟩

/-- JS `s.endsWith(pat)`. -/
def jsEndsWith (s pat : String) : Bool :=
  pat.data.isSuffixOf s.data

/-- Core of `removeFirst`. -/
def removeFirstChars : List Char → List Char → List Char
  | [], _ => []
  | c :: rest, pat =>
    if pat.isPrefixOf (c :: rest) then (c :: rest).drop pat.length
    else c :: removeFirstChars rest pat

/-- JS `s.replace(pat, "")` with a string pattern: removes the FIRST
occurrence of `pat` (the string is returned unchanged when `pat` does not
occur). -/
def removeFirst (s pat : String) : String :=
  ⟨removeFirstChars s.data pat.data⟩

/-- JS `s.charAt(0).toUpperCase() + s.slice(1)` as used in
`process_document.ts`. -/
def capitalizeFirst (s : String) : String :=
  match s.data with
  | [] => ""
  | c :: rest => ⟨c.toUpper :: rest⟩

/-! ## Data model (`UserSession.ts`, `mindee.ts`) -/

/-- `PassportData` (`services/mindee/mindee.ts`): human-readable fields. -/
structure PassportData where
  name : String
  surname : String
  dateOfBirth : String
  passportNumber : String
  dateOfIssue : String
  dateOfExpiry : String
deriving DecidableEq

/-- `DriversLicenseData` (`services/mindee/mindee.ts`). -/
structure DriversLicenseData where
  firstName : String
  lastName : String
  dateOfBirth : String
  licenseNumber : String
  issuedDate : String
  expiryDate : String
  country : String
  category : String
deriving DecidableEq

/-- The TS union `PassportData | DriversLicenseData` (what `extractData`
returns after schema validation). -/
inductive StructuredDoc
  | passport (d : PassportData)
  | license (d : DriversLicenseData)
deriving DecidableEq

/-- The TS union `PassportData | DriversLicenseData | string` stored in a
session's document fields: a structured record or the raw manual-input
text. -/
inductive DocumentData
  | structured (d : StructuredDoc)
  | raw (s : String)
deriving DecidableEq

/-- First argument of `UserSession.setDocumentData`:
`"passport" | "driver's license"`. -/
inductive DocumentType
  | passport
  | driversLicense
deriving DecidableEq

/-- The literal string of a `DocumentType` in the source. -/
def DocumentType.sourceName : DocumentType → String
  | .passport => "passport"
  | .driversLicense => "driver's license"

/-- Conversation roles (`AgentRole` in `UserSession.ts`). -/
inductive AgentRole
  | user
  | assistant
deriving DecidableEq

/-- One transcript entry (an `AgentInputItem` built by `user`/`assistant`). -/
structure ConvEntry where
  role : AgentRole
  content : String
deriving DecidableEq

/-- Step names, in the fixed order of `UserSession.STEPS`. -/
inductive StepName
  | start
  | awaiting_passport
  | confirming_passport
  | awaiting_driversId
  | confirming_driversId
  | confirming_price
  | sending_policy
  | completed
deriving DecidableEq

/-- `UserSession.STEPS`: the ordered list of the eight step names. -/
def STEPS : List StepName :=
  [.start, .awaiting_passport, .confirming_passport, .awaiting_driversId,
   .confirming_driversId, .confirming_price, .sending_policy, .completed]

/-- `UserSession.STEPS[i]!`: lookup of the i-th step name.  Out-of-range
indices never occur (see the C1 invariant); the source's `!` assertion is
modelled by returning `start` there. -/
def stepAt : Nat → StepName
  | 0 => .start
  | 1 => .awaiting_passport
  | 2 => .confirming_passport
  | 3 => .awaiting_driversId
  | 4 => .confirming_driversId
  | 5 => .confirming_price
  | 6 => .sending_policy
  | 7 => .completed
  | _ => .start

/-- `UserSession`: per-user mutable state.  `awaitingManualInput?` is an
optional boolean in TS and is only ever read in boolean position, so it is
modelled as `Bool` (absent = `false`). -/
structure UserSession where
  stepIndex : Nat
  conversation : List ConvEntry
  passportData : Option DocumentData
  driversIdData : Option DocumentData
  awaitingManualInput : Bool
deriving DecidableEq

/-- `new UserSession()`. -/
def UserSession.init : UserSession :=
  { stepIndex := 0, conversation := [], passportData := none,
    driversIdData := none, awaitingManualInput := false }

/-- `get step()`: `UserSession.STEPS[this._stepIndex]!`. -/
def UserSession.step (s : UserSession) : StepName :=
  stepAt s.stepIndex

/-- `nextStep()`: advance, saturating at the last index. -/
def UserSession.nextStep (s : UserSession) : UserSession :=
  if s.stepIndex < STEPS.length - 1 then { s with stepIndex := s.stepIndex + 1 }
  else s

/-- `prevStep()`: retreat, saturating at index 0. -/
def UserSession.prevStep (s : UserSession) : UserSession :=
  if 0 < s.stepIndex then { s with stepIndex := s.stepIndex - 1 } else s

/-- `setDocumentData(documentType, data)`.  `null` clears the field (the
reject callbacks pass `null`); the TS signature erases which variant is
stored, exactly as `Option DocumentData` does. -/
def UserSession.setDocumentData (s : UserSession) (dt : DocumentType)
    (v : Option DocumentData) : UserSession :=
  match dt with
  | .passport => { s with passportData := v }
  | .driversLicense => { s with driversIdData := v }

/-- `addToConversationHistory(item, role)`. -/
def UserSession.addToConversationHistory (s : UserSession) (item : String)
    (role : AgentRole) : UserSession :=
  { s with conversation := s.conversation ++ [{ role := role, content := item }] }

/-- `setConversation(history)`: full replacement after an agent turn. -/
def UserSession.setConversation (s : UserSession) (h : List ConvEntry) :
    UserSession :=
  { s with conversation := h }

/-! ## Collaborator oracles -/

/-- Observable outcome of one successful `run(agent, ...)` call inside
`promptAgent`: the final text, the updated transcript, and the document
writes its tools performed (`parse_passport` / `parse_drivers_licence` in
`agent.ts` store structured data into the caller's session via
`sessionStorage.get(chat_id)`).  A failed call is modelled as leaving the
session untouched (`setConversation` is only reached on success). -/
structure AgentOutcome where
  finalOutput : String
  history : List ConvEntry
  passportWrite : Option PassportData
  driversWrite : Option DriversLicenseData
deriving DecidableEq

/-- Session mutation performed by a successful `promptAgent` call: tool
writes during `run`, then `setConversation(result.history)`. -/
def applyAgentOutcome (s : UserSession) (o : AgentOutcome) : UserSession :=
  let s1 := match o.passportWrite with
    | some d => s.setDocumentData .passport (some (.structured (.passport d)))
    | none => s
  let s2 := match o.driversWrite with
    | some d => s1.setDocumentData .driversLicense (some (.structured (.license d)))
    | none => s1
  s2.setConversation o.history

/-- Per-message collaborator outcomes.  `fileUrl` is the `getFileUrl`
result (`Except` error carries the user-facing error message of
`get_file_url.ts`); `agent` is the outcome of the (at most one) agent call
made while handling the message; `mindee` the `extractData` outcome;
`policy` the PDF-generation/`sendDocument` outcome inside `sendPolicy`. -/
structure MsgEnv where
  fileUrl : Except String String
  agent : Except Unit AgentOutcome
  mindee : Except Unit StructuredDoc
  policy : Except Unit Unit

/-! ## Inbound messages and content classification (`routes/webhook.ts`) -/

/-- `TelegramMessageContent`. -/
inductive ContentType
  | photo
  | document
  | text
  | command
  | unsupported
deriving DecidableEq

/-- The literal string of a `ContentType` (used by the router's retry
prompt `expectsContent?.join(" or ")`). -/
def ContentType.sourceName : ContentType → String
  | .photo => "photo"
  | .document => "document"
  | .text => "text"
  | .command => "command"
  | .unsupported => "unsupported"

/-- The parts of a `TelegramMessage` the router inspects: presence of a
photo / document attachment, whether `entities[0]?.type === "bot_command"`,
and the text. -/
structure TelegramMessage where
  hasPhoto : Bool
  hasDocument : Bool
  firstEntityIsBotCommand : Bool
  text : Option String
deriving DecidableEq

/-- `getContentType` (`routes/webhook.ts`): classification precedence
photo → document → command → text → unsupported. -/
def getContentType (m : TelegramMessage) : ContentType :=
  if m.hasPhoto then .photo
  else if m.hasDocument then .document
  else if m.firstEntityIsBotCommand then .command
  else if m.text.isSome then .text
  else .unsupported

/-! ## Handler outputs -/

/-- Which fallback tiers began executing during one message handling
(instrumentation of the source's control flow, used to state the tier
ordering claims). -/
inductive TraceEvent
  | docAgentTier
  | docMindeeTier
  | docManualTier
  | confManualTier
deriving DecidableEq

/-- Result of handling one message: the mutated session, the texts passed
to `sendMessage` in order, and the tier trace. -/
structure HandlerOut where
  session : UserSession
  sent : List String
  trace : List TraceEvent
deriving DecidableEq

/-! ## Document ingestion pipeline (`handlers/process_document.ts`) -/

/-- The fixed "Processing your document" acknowledgment. -/
def processingMessage : String :=
  "*Processing your document 👀*\n\nThis may take a moment. I'll reply as soon as it's complete!"

/-- The manual-entry prompt built from the capitalized document type. -/
def manualInputPrompt (dt : DocumentType) : String :=
  "Please type your passport information manually:\n\n- Full name\n- "
    ++ capitalizeFirst dt.sourceName ++ " number\n- Date of birth"

/-- The tier-3 apology message. -/
def apologyMsg (dt : DocumentType) : String :=
  "Sorry, I couldn't process your " ++ dt.sourceName ++ ". " ++ manualInputPrompt dt

/-- `createDocumentSummary` (`handlers/utils/doc_summary.ts`): the
field-by-field template message, built from `Object.entries(data)` in the
interface field order. -/
def StructuredDoc.entries : StructuredDoc → List (String × String)
  | .passport d =>
    [("Name", d.name), ("Surname", d.surname), ("Date of Birth", d.dateOfBirth),
     ("Passport Number", d.passportNumber), ("Date of Issue", d.dateOfIssue),
     ("Date of Expiry", d.dateOfExpiry)]
  | .license d =>
    [("First Name", d.firstName), ("Last Name", d.lastName),
     ("Date of Birth", d.dateOfBirth), ("License Number", d.licenseNumber),
     ("Issued Date", d.issuedDate), ("Expiry Date", d.expiryDate),
     ("Country", d.country), ("Category", d.category)]

/-- `createDocumentSummary(data, documentType)`. -/
def createDocumentSummary (data : StructuredDoc) (dt : DocumentType) : String :=
  let summary := String.intercalate "\n"
    (data.entries.map (fun e => "*" ++ e.1 ++ ":* " ++ e.2))
  "✅ I've extracted your " ++ dt.sourceName ++ " data:\n\n" ++ summary
    ++ "\n\nIs this correct?\nPlease reply with \"yes\" or \"no\"."

/-- `handleManualInput`: accept the text verbatim as the document value,
clear the flag, echo a confirmation, advance. -/
def handleManualInput (dt : DocumentType) (msg : TelegramMessage)
    (s : UserSession) : HandlerOut :=
  let t := msg.text.getD ""
  let s1 := s.setDocumentData dt (some (.raw t))
  let s2 := { s1 with awaitingManualInput := false }
  let confirmationMsg := "Thank you! I've recorded your " ++ dt.sourceName
    ++ " information:\n\n" ++ t ++ "\n\nIs this correct?"
  let s3 := s2.addToConversationHistory confirmationMsg .assistant
  { session := s3.nextStep, sent := [confirmationMsg], trace := [] }

/-- `processDocument`: manual-input shortcut, then `getFileUrl`, then the
3-tier fallback chain (agent → direct Mindee → manual prompt). -/
def processDocument (env : MsgEnv) (dt : DocumentType) (ct : ContentType)
    (msg : TelegramMessage) (s : UserSession) : HandlerOut :=
  if s.awaitingManualInput = true ∧ ct = .text then
    handleManualInput dt msg s
  else
    match env.fileUrl with
    | .error errorMessage => { session := s, sent := [errorMessage], trace := [] }
    | .ok _ =>
      match env.agent with
      | .ok o =>
        let s1 := applyAgentOutcome s o
        if jsEndsWith o.finalOutput "[FAILED]" then
          let m := jsTrim (removeFirst o.finalOutput "[FAILED]")
          -- stay on current step to retry
          { session := s1, sent := [processingMessage, m], trace := [.docAgentTier] }
        else
          { session := s1.nextStep, sent := [processingMessage, o.finalOutput],
            trace := [.docAgentTier] }
      | .error _ =>
        match env.mindee with
        | .ok documentData =>
          let s1 := s.setDocumentData dt (some (.structured documentData))
          let confirmationMsg := createDocumentSummary documentData dt
          let s2 := s1.addToConversationHistory confirmationMsg .assistant
          { session := s2.nextStep,
            sent := [processingMessage, confirmationMsg],
            trace := [.docAgentTier, .docMindeeTier] }
        | .error _ =>
          let s1 := s.addToConversationHistory (apologyMsg dt) .assistant
          let s2 := { s1 with awaitingManualInput := true }
          { session := s2, sent := [processingMessage, apologyMsg dt],
            trace := [.docAgentTier, .docMindeeTier, .docManualTier] }

/-! ## Policy dispatch (`handlers/send_policy.ts`) -/

/-- Error message of `sendPolicy`. -/
def policyErrorMessage : String :=
  "Sorry, there was an error with your policy. Please try again later."

/-- `sendPolicy`: generate the PDF and send it (modelled by the `policy`
oracle; the `sendDocument` file delivery itself is not a `sendMessage`
event), then advance; on failure send the error text and stay. -/
def sendPolicy (env : MsgEnv) (s : UserSession) : UserSession × List String :=
  match env.policy with
  | .ok _ => (s.nextStep, [])
  | .error _ => (s, [policyErrorMessage])

/-! ## Confirmation resolver (`handlers/confirm_data.ts`) -/

/-- `ManualConfirmation`. -/
inductive ManualConfirmation
  | yes
  | no
  | unparseable
deriving DecidableEq

/-- The decision carried by a successful `AIConfirmationResult`. -/
inductive Decision
  | yes
  | no
deriving DecidableEq

/-- `AIConfirmationResult`. -/
inductive AIConfirmationResult
  | success (decision : Decision) (message : String)
  | needsAnswer (message : String)
  | agentUnavailable

/-- `getAIConfirmation`: marker parsing of the agent reply, paired with the
session as mutated by the agent call (`promptAgent` applies tool writes and
the history update only on success). -/
def getAIConfirmation (agentCall : Except Unit AgentOutcome)
    (s : UserSession) : AIConfirmationResult × UserSession :=
  match agentCall with
  | .error _ => (.agentUnavailable, s)
  | .ok o =>
    let s1 := applyAgentOutcome s o
    if jsEndsWith o.finalOutput "[CONFIRMED]" then
      (.success .yes (jsTrim (removeFirst o.finalOutput "[CONFIRMED]")), s1)
    else if jsEndsWith o.finalOutput "[REJECTED]" then
      (.success .no (jsTrim (removeFirst o.finalOutput "[REJECTED]")), s1)
    else
      (.needsAnswer o.finalOutput, s1)

/-- `guessDecision`: dumb yes/no matching on the normalized text. -/
def guessDecision (text : String) : ManualConfirmation :=
  let normalized := jsTrim (jsToLower text)
  if normalized = "yes" then .yes
  else if normalized = "no" then .no
  else .unparseable

/-- The (retryMessage, successMessage) pair of `getMessagesForStep`. -/
structure StepMessages where
  retryMessage : String
  successMessage : String

/-- `getMessagesForStep`: defined for the three confirmation steps, throws
otherwise (modelled as `none`; the router catch turns a handler throw into
the generic retry prompt). -/
def getMessagesForStep : StepName → Option StepMessages
  | .confirming_passport => some
    { retryMessage := "Sorry about that! Could you try taking another photo of your passport?\n\nMake sure it's clear and well-lit so we can help you faster. Thanks! üôåüèº",
      successMessage := "Great! Now please upload your driver's license." }
  | .confirming_driversId => some
    { retryMessage := "Sorry about that! Could you try taking another photo of your driver's license?\n\nMake sure it's clear and well-lit so we can help you faster. Thanks! üôåüèº",
      successMessage := "Thank you for providing your information.\n\nOur standard insurance rate is $100 USD per policy. Would you like to proceed?" }
  | .confirming_price => some
    { retryMessage := "We apologize, but $100 is the only available price for this insurance.\n\nPlease respond with 'yes' to continue or 'no' if you don't want to proceed.",
      successMessage := "Great! We'll send you your insurance shortly." }
  | _ => none

/-- The tier-2 re-prompt of the confirmation resolver. -/
def yesNoPrompt : String := "Please reply \"yes\" to confirm or \"no\" to retry."

/-- `ConfirmationStepConfig`: optional accept/reject callbacks.  A callback
returns the mutated session and the texts it sent. -/
structure ConfirmationStepConfig where
  onAccept : Option (UserSession → UserSession × List String)
  onReject : Option (UserSession → UserSession × List String)

/-- `handleConfirmation`: AI-parsed intent, conversational side-question
pass-through, and the manual yes/no fallback.  `none` models the
`getMessagesForStep` throw (unreachable from the installed configs). -/
def handleConfirmation (env : MsgEnv) (cfg : ConfirmationStepConfig)
    (msg : TelegramMessage) (s : UserSession) : Option HandlerOut :=
  let userMessage := msg.text.getD ""
  match getAIConfirmation env.agent s with
  | (.success decision m, s1) =>
    let s2 := s1.addToConversationHistory m .assistant
    match decision with
    | .yes =>
      match cfg.onAccept with
      | some f => some { session := (f s2).1, sent := m :: (f s2).2, trace := [] }
      | none => some { session := s2.nextStep, sent := [m], trace := [] }
    | .no =>
      match cfg.onReject with
      | some f => some { session := (f s2).1, sent := m :: (f s2).2, trace := [] }
      | none => some { session := s2.prevStep, sent := [m], trace := [] }
  | (.needsAnswer m, s1) =>
    some { session := s1.addToConversationHistory m .assistant, sent := [m],
           trace := [] }
  | (.agentUnavailable, s1) =>
    match guessDecision userMessage with
    | .unparseable =>
      some { session := s1, sent := [yesNoPrompt], trace := [.confManualTier] }
    | .yes =>
      match getMessagesForStep s1.step with
      | none => none
      | some messages =>
        let s2 := s1.addToConversationHistory messages.successMessage .assistant
        match cfg.onAccept with
        | some f => some { session := (f s2).1,
                           sent := messages.successMessage :: (f s2).2,
                           trace := [.confManualTier] }
        | none => some { session := s2.nextStep,
                         sent := [messages.successMessage],
                         trace := [.confManualTier] }
    | .no =>
      match getMessagesForStep s1.step with
      | none => none
      | some messages =>
        let s2 := s1.addToConversationHistory messages.retryMessage .assistant
        match cfg.onReject with
        | some f => some { session := (f s2).1,
                           sent := messages.retryMessage :: (f s2).2,
                           trace := [.confManualTier] }
        | none => some { session := s2.prevStep,
                         sent := [messages.retryMessage],
                         trace := [.confManualTier] }

/-! ## Step registry (`handlers/step_configs.ts`) -/

/-- `expectsContent` of each step config. -/
def StepName.expectsContent : StepName → List ContentType
  | .start => [.command]
  | .awaiting_passport => [.document, .photo]
  | .confirming_passport => [.text]
  | .awaiting_driversId => [.document, .photo]
  | .confirming_driversId => [.text]
  | .confirming_price => [.text]
  | .sending_policy => [.text]
  | .completed => [.text, .command]

/-- `expectedAction` of each step config. -/
def StepName.expectedAction : StepName → String
  | .start => "use a /start command first"
  | .awaiting_passport => "send your passport photo"
  | .confirming_passport => "confirm your passport data"
  | .awaiting_driversId => "send your driver's license photo"
  | .confirming_driversId => "confirm your driver's license data"
  | .confirming_price => "confirm or reject our offer"
  | .sending_policy => ""
  | .completed => "enjoy your newly issued policy"

/-- `stepConfigs.confirming_passport` callbacks: rejecting clears the
stored passport data and retreats. -/
def confirmingPassportConfig : ConfirmationStepConfig :=
  { onAccept := none,
    onReject := some fun s => ((s.setDocumentData .passport none).prevStep, []) }

/-- `stepConfigs.confirming_driversId` callbacks: rejecting clears the
stored license data and retreats. -/
def confirmingDriversIdConfig : ConfirmationStepConfig :=
  { onAccept := none,
    onReject := some fun s =>
      ((s.setDocumentData .driversLicense none).prevStep, []) }

/-- `stepConfigs.confirming_price` callbacks: accepting advances and then
triggers `sendPolicy`; rejecting does nothing (the user must agree to
proceed). -/
def confirmingPriceConfig (env : MsgEnv) : ConfirmationStepConfig :=
  { onAccept := some fun s => sendPolicy env s.nextStep,
    onReject := some fun s => (s, []) }

/-- The `/start` welcome message. -/
def welcomeMessage : String :=
  "*Hey there!* 👋\n\nLet's get your *insurance policy* set up quickly.\n\nFirst send me a clear photo of your passport and I'll take care of the rest!\n\n*Supported formats:*\n📄 PDF\n📷 JPG, PNG, HEIC, TIFF, WebP"

/-- The closing acknowledgment of the `completed` step. -/
def completedMessage : String := "Thanks for using our service!"

/-- Dispatch of `stepConfigs[step].handler`.  `none` models a handler
throw (only `handleConfirmation` can throw). -/
def runStepHandler (env : MsgEnv) (msg : TelegramMessage) (ct : ContentType)
    (s : UserSession) : Option HandlerOut :=
  match s.step with
  | .start =>
    some { session := s.nextStep, sent := [welcomeMessage], trace := [] }
  | .awaiting_passport => some (processDocument env .passport ct msg s)
  | .confirming_passport => handleConfirmation env confirmingPassportConfig msg s
  | .awaiting_driversId => some (processDocument env .driversLicense ct msg s)
  | .confirming_driversId => handleConfirmation env confirmingDriversIdConfig msg s
  | .confirming_price => handleConfirmation env (confirmingPriceConfig env) msg s
  | .sending_policy =>
    some { session := (sendPolicy env s).1, sent := (sendPolicy env s).2,
           trace := [] }
  | .completed =>
    some { session := s, sent := [completedMessage], trace := [] }

/-! ## Content router (`routes/webhook.ts` default export) -/

/-- The router's generic fallback message for the current step. -/
def fallbackMessage (s : UserSession) : String :=
  "Sorry, I can't process that.\n\nPlease, " ++ s.step.expectedAction

/-- The retry prompt sent when a step handler throws. -/
def retryPrompt (s : UserSession) : String :=
  "Please, send: " ++ String.intercalate " or "
    (s.step.expectsContent.map ContentType.sourceName)

/-- `handleInboundMessage`: classification, the three gates, and dispatch.
Faithful to the route handler in `routes/webhook.ts`. -/
def handleInboundMessage (env : MsgEnv) (msg : TelegramMessage)
    (s : UserSession) : HandlerOut :=
  let contentType := getContentType msg
  if contentType = .unsupported then
    { session := s, sent := [fallbackMessage s], trace := [] }
  else
    -- GATE 2: expected content, or manual-input text pass-through
    if contentType ∈ s.step.expectsContent ∨
       (s.awaitingManualInput = true ∧ contentType = .text) then
      match runStepHandler env msg contentType s with
      | some out => out
      | none => { session := s, sent := [retryPrompt s], trace := [] }
    else if contentType = .text ∨ contentType = .command then
      -- GATE 3: unexpected text/command goes to the agent conversationally
      let s1 := s.addToConversationHistory (msg.text.getD "") .user
      match env.agent with
      | .ok o =>
        { session := (applyAgentOutcome s1 o).addToConversationHistory
                       o.finalOutput .assistant,
          sent := [o.finalOutput], trace := [] }
      | .error _ =>
        { session := s1, sent := [fallbackMessage s], trace := [] }
    else
      -- unexpected document/photo
      { session := s, sent := [fallbackMessage s], trace := [] }

/-! ## Invariant-level definitions -/

/-- The step index is a valid index into `STEPS`. -/
def StepOk (s : UserSession) : Prop := s.stepIndex < STEPS.length

/-- A confirmation callback that maps valid-index sessions to valid-index
sessions. -/
def PreservesStepOk (f : UserSession → UserSession × List String) : Prop :=
  ∀ s, StepOk s → StepOk (f s).1

/-! ## Reachable sessions -/

/-- Sessions reachable from a fresh session by handling any sequence of
inbound messages under arbitrary collaborator outcomes. -/
inductive Reachable : UserSession → Prop
  | init : Reachable UserSession.init
  | handle (env : MsgEnv) (msg : TelegramMessage) {s : UserSession} :
      Reachable s → Reachable (handleInboundMessage env msg s).session

/-- The document field selected by a `DocumentType`. -/
def UserSession.docField (s : UserSession) : DocumentType → Option DocumentData
  | .passport => s.passportData
  | .driversLicense => s.driversIdData

/-- Modelled from the spec's words (C5): "that reply with the marker
stripped and trimmed" — the terminal marker occurrence removed, then
trimmed.  Compare with the source's `removeFirst`-based computation. -/
def specStrippedReply (reply marker : String) : String :=
  jsTrim ⟨reply.data.take (reply.data.length - marker.data.length)⟩

/-- The document-presence invariant claimed by C2: at a document
confirmation step the corresponding document field is present (structured
record or raw string). -/
def DocPresenceInv (s : UserSession) : Prop :=
  (s.step = .confirming_passport → s.passportData.isSome = true) ∧
  (s.step = .confirming_driversId → s.driversIdData.isSome = true)

/-- Agent-behaviour assumption for the amended C2: whenever the agent call
of a document-awaiting step succeeds without the `[FAILED]` marker, the
agent's tool run has written that document into the session (the source
relies on this side effect but cannot enforce it). -/
def EnvOkFor (s : UserSession) (env : MsgEnv) : Prop :=
  (s.step = .awaiting_passport → ∀ o, env.agent = .ok o →
    jsEndsWith o.finalOutput "[FAILED]" = false →
    o.passportWrite.isSome = true) ∧
  (s.step = .awaiting_driversId → ∀ o, env.agent = .ok o →
    jsEndsWith o.finalOutput "[FAILED]" = false →
    o.driversWrite.isSome = true)

/-- Reachability restricted to traces whose agent oracles satisfy
`EnvOkFor` at each handled message. -/
inductive ReachableOk : UserSession → Prop
  | init : ReachableOk UserSession.init
  | handle (env : MsgEnv) (msg : TelegramMessage) {s : UserSession} :
      ReachableOk s → EnvOkFor s env →
      ReachableOk (handleInboundMessage env msg s).session

/-! ## Basic lemmas about the session operations -/

@[simp] theorem setDocumentData_stepIndex (s : UserSession) (dt v) :
    (s.setDocumentData dt v).stepIndex = s.stepIndex := by
  cases dt <;> rfl

@[simp] theorem setDocumentData_awaiting (s : UserSession) (dt v) :
    (s.setDocumentData dt v).awaitingManualInput = s.awaitingManualInput := by
  cases dt <;> rfl

@[simp] theorem setDocumentData_conversation (s : UserSession) (dt v) :
    (s.setDocumentData dt v).conversation = s.conversation := by
  cases dt <;> rfl

@[simp] theorem setDocumentData_passport_passportData (s : UserSession) (v) :
    (s.setDocumentData .passport v).passportData = v := rfl

@[simp] theorem setDocumentData_passport_driversIdData (s : UserSession) (v) :
    (s.setDocumentData .passport v).driversIdData = s.driversIdData := rfl

@[simp] theorem setDocumentData_license_driversIdData (s : UserSession) (v) :
    (s.setDocumentData .driversLicense v).driversIdData = v := rfl

@[simp] theorem setDocumentData_license_passportData (s : UserSession) (v) :
    (s.setDocumentData .driversLicense v).passportData = s.passportData := rfl

@[simp] theorem addToConversationHistory_stepIndex (s : UserSession) (m r) :
    (s.addToConversationHistory m r).stepIndex = s.stepIndex := rfl

@[simp] theorem addToConversationHistory_passportData (s : UserSession) (m r) :
    (s.addToConversationHistory m r).passportData = s.passportData := rfl

@[simp] theorem addToConversationHistory_driversIdData (s : UserSession) (m r) :
    (s.addToConversationHistory m r).driversIdData = s.driversIdData := rfl

@[simp] theorem addToConversationHistory_awaiting (s : UserSession) (m r) :
    (s.addToConversationHistory m r).awaitingManualInput = s.awaitingManualInput := rfl

@[simp] theorem setConversation_stepIndex (s : UserSession) (h) :
    (s.setConversation h).stepIndex = s.stepIndex := rfl

@[simp] theorem setConversation_passportData (s : UserSession) (h) :
    (s.setConversation h).passportData = s.passportData := rfl

@[simp] theorem setConversation_driversIdData (s : UserSession) (h) :
    (s.setConversation h).driversIdData = s.driversIdData := rfl

@[simp] theorem setConversation_awaiting (s : UserSession) (h) :
    (s.setConversation h).awaitingManualInput = s.awaitingManualInput := rfl

@[simp] theorem applyAgentOutcome_stepIndex (s : UserSession) (o) :
    (applyAgentOutcome s o).stepIndex = s.stepIndex := by
  unfold applyAgentOutcome
  cases o.passportWrite <;> cases o.driversWrite <;> simp

@[simp] theorem applyAgentOutcome_awaiting (s : UserSession) (o) :
    (applyAgentOutcome s o).awaitingManualInput = s.awaitingManualInput := by
  unfold applyAgentOutcome
  cases o.passportWrite <;> cases o.driversWrite <;> simp

@[simp] theorem applyAgentOutcome_step (s : UserSession) (o) :
    (applyAgentOutcome s o).step = s.step := by
  unfold UserSession.step
  rw [applyAgentOutcome_stepIndex]

theorem applyAgentOutcome_passportData_of_none {o : AgentOutcome}
    (s : UserSession) (h : o.passportWrite = none) :
    (applyAgentOutcome s o).passportData = s.passportData := by
  unfold applyAgentOutcome
  rw [h]
  cases o.driversWrite <;> simp

theorem applyAgentOutcome_driversIdData_of_none {o : AgentOutcome}
    (s : UserSession) (h : o.driversWrite = none) :
    (applyAgentOutcome s o).driversIdData = s.driversIdData := by
  unfold applyAgentOutcome
  rw [h]
  cases o.passportWrite <;> simp

theorem applyAgentOutcome_passportData_isSome {s : UserSession} {o : AgentOutcome}
    (h : s.passportData.isSome = true) :
    (applyAgentOutcome s o).passportData.isSome = true := by
  unfold applyAgentOutcome
  cases o.passportWrite <;> cases o.driversWrite <;> simp_all

theorem applyAgentOutcome_passportData_isSome_of_write {s : UserSession}
    {o : AgentOutcome} (h : o.passportWrite.isSome = true) :
    (applyAgentOutcome s o).passportData.isSome = true := by
  unfold applyAgentOutcome
  cases hw : o.passportWrite <;> cases o.driversWrite <;> simp_all

theorem applyAgentOutcome_driversIdData_isSome {s : UserSession} {o : AgentOutcome}
    (h : s.driversIdData.isSome = true) :
    (applyAgentOutcome s o).driversIdData.isSome = true := by
  unfold applyAgentOutcome
  cases o.passportWrite <;> cases hw : o.driversWrite <;> simp_all

theorem applyAgentOutcome_driversIdData_isSome_of_write {s : UserSession}
    {o : AgentOutcome} (h : o.driversWrite.isSome = true) :
    (applyAgentOutcome s o).driversIdData.isSome = true := by
  unfold applyAgentOutcome
  cases o.passportWrite <;> cases hw : o.driversWrite <;> simp_all

@[simp] theorem nextStep_passportData (s : UserSession) :
    s.nextStep.passportData = s.passportData := by
  unfold UserSession.nextStep; split <;> rfl

@[simp] theorem nextStep_driversIdData (s : UserSession) :
    s.nextStep.driversIdData = s.driversIdData := by
  unfold UserSession.nextStep; split <;> rfl

@[simp] theorem nextStep_awaiting (s : UserSession) :
    s.nextStep.awaitingManualInput = s.awaitingManualInput := by
  unfold UserSession.nextStep; split <;> rfl

@[simp] theorem prevStep_passportData (s : UserSession) :
    s.prevStep.passportData = s.passportData := by
  unfold UserSession.prevStep; split <;> rfl

@[simp] theorem prevStep_driversIdData (s : UserSession) :
    s.prevStep.driversIdData = s.driversIdData := by
  unfold UserSession.prevStep; split <;> rfl

@[simp] theorem prevStep_awaiting (s : UserSession) :
    s.prevStep.awaitingManualInput = s.awaitingManualInput := by
  unfold UserSession.prevStep; split <;> rfl

theorem nextStep_stepIndex_of_lt {s : UserSession} (h : s.stepIndex < 7) :
    s.nextStep.stepIndex = s.stepIndex + 1 := by
  unfold UserSession.nextStep
  rw [if_pos]
  simp [STEPS]
  omega

theorem prevStep_stepIndex_of_pos {s : UserSession} (h : 0 < s.stepIndex) :
    s.prevStep.stepIndex = s.stepIndex - 1 := by
  unfold UserSession.prevStep
  rw [if_pos h]

/-! ## Step-index validity -/


theorem StepOk.of_eq {s t : UserSession} (h : StepOk s)
    (e : t.stepIndex = s.stepIndex) : StepOk t := by
  unfold StepOk at *
  omega

theorem stepOk_nextStep {s : UserSession} (h : StepOk s) : StepOk s.nextStep := by
  unfold StepOk UserSession.nextStep at *
  split <;> simp [STEPS] at * <;> omega

theorem stepOk_prevStep {s : UserSession} (h : StepOk s) : StepOk s.prevStep := by
  unfold StepOk UserSession.prevStep at *
  split <;> simp [STEPS] at * <;> omega

theorem stepOk_handleManualInput (dt msg) {s : UserSession} (h : StepOk s) :
    StepOk (handleManualInput dt msg s).session := by
  unfold handleManualInput
  apply stepOk_nextStep
  apply h.of_eq
  simp

theorem stepOk_processDocument (env dt ct msg) {s : UserSession} (h : StepOk s) :
    StepOk (processDocument env dt ct msg s).session := by
  unfold processDocument
  split
  · exact stepOk_handleManualInput dt msg h
  · cases env.fileUrl with
    | error e => exact h
    | ok u =>
      cases env.agent with
      | ok o =>
        by_cases hf : jsEndsWith o.finalOutput "[FAILED]" = true
        · simpa [hf] using h.of_eq (by simp)
        · simp only [Bool.not_eq_true] at hf
          simp only [hf]
          exact stepOk_nextStep (h.of_eq (by simp))
      | error e =>
        cases env.mindee with
        | ok d =>
          exact stepOk_nextStep (h.of_eq (by simp))
        | error e' =>
          exact h.of_eq (by simp)


theorem stepOk_handleConfirmation (env cfg msg) {s : UserSession} (h : StepOk s)
    (ha : ∀ f, cfg.onAccept = some f → PreservesStepOk f)
    (hr : ∀ f, cfg.onReject = some f → PreservesStepOk f)
    {out} (e : handleConfirmation env cfg msg s = some out) :
    StepOk out.session := by
  unfold handleConfirmation getAIConfirmation at e
  cases hag : env.agent with
  | ok o =>
    simp only [hag] at e
    by_cases hc : jsEndsWith o.finalOutput "[CONFIRMED]" = true
    · simp only [hc, if_pos] at e
      cases hacc : cfg.onAccept with
      | some f =>
        simp only [hacc] at e
        cases e
        exact ha f hacc _ (h.of_eq (by simp))
      | none =>
        simp only [hacc] at e
        cases e
        exact stepOk_nextStep (h.of_eq (by simp))
    · simp only [Bool.not_eq_true] at hc
      simp only [hc] at e
      by_cases hrj : jsEndsWith o.finalOutput "[REJECTED]" = true
      · simp only [hrj, if_pos] at e
        cases hrej : cfg.onReject with
        | some f =>
          simp only [hrej] at e
          cases e
          exact hr f hrej _ (h.of_eq (by simp))
        | none =>
          simp only [hrej] at e
          cases e
          exact stepOk_prevStep (h.of_eq (by simp))
      · simp only [Bool.not_eq_true] at hrj
        simp only [hrj] at e
        cases e
        exact h.of_eq (by simp)
  | error u =>
    simp only [hag] at e
    cases hg : guessDecision (msg.text.getD "") with
    | unparseable =>
      simp only [hg] at e
      cases e
      exact h
    | yes =>
      simp only [hg] at e
      cases hm : getMessagesForStep s.step with
      | none => simp [hm] at e
      | some messages =>
        simp only [hm] at e
        cases hacc : cfg.onAccept with
        | some f =>
          simp only [hacc] at e
          cases e
          exact ha f hacc _ (h.of_eq (by simp))
        | none =>
          simp only [hacc] at e
          cases e
          exact stepOk_nextStep (h.of_eq (by simp))
    | no =>
      simp only [hg] at e
      cases hm : getMessagesForStep s.step with
      | none => simp [hm] at e
      | some messages =>
        simp only [hm] at e
        cases hrej : cfg.onReject with
        | some f =>
          simp only [hrej] at e
          cases e
          exact hr f hrej _ (h.of_eq (by simp))
        | none =>
          simp only [hrej] at e
          cases e
          exact stepOk_prevStep (h.of_eq (by simp))

theorem preservesStepOk_confirmingPassport_onReject :
    PreservesStepOk (fun s => ((s.setDocumentData .passport none).prevStep, [])) := by
  intro s h
  exact stepOk_prevStep (h.of_eq (by simp))

theorem preservesStepOk_confirmingDriversId_onReject :
    PreservesStepOk (fun s =>
      ((s.setDocumentData .driversLicense none).prevStep, [])) := by
  intro s h
  exact stepOk_prevStep (h.of_eq (by simp))

theorem stepOk_sendPolicy (env) {s : UserSession} (h : StepOk s) :
    StepOk (sendPolicy env s).1 := by
  unfold sendPolicy
  cases env.policy with
  | ok u => exact stepOk_nextStep h
  | error u => exact h

theorem preservesStepOk_confirmingPrice_onAccept (env) :
    PreservesStepOk (fun s => sendPolicy env s.nextStep) := by
  intro s h
  exact stepOk_sendPolicy env (stepOk_nextStep h)

theorem stepOk_runStepHandler (env msg ct) {s : UserSession} (h : StepOk s)
    {out} (e : runStepHandler env msg ct s = some out) : StepOk out.session := by
  unfold runStepHandler at e
  cases hs : s.step with
  | start =>
    rw [hs] at e
    cases e
    exact stepOk_nextStep h
  | awaiting_passport =>
    rw [hs] at e
    cases e
    exact stepOk_processDocument env .passport ct msg h
  | confirming_passport =>
    rw [hs] at e
    refine stepOk_handleConfirmation env _ msg h ?_ ?_ e
    · intro f hf
      simp [confirmingPassportConfig] at hf
    · intro f hf
      simp only [confirmingPassportConfig, Option.some.injEq] at hf
      rw [← hf]
      exact preservesStepOk_confirmingPassport_onReject
  | awaiting_driversId =>
    rw [hs] at e
    cases e
    exact stepOk_processDocument env .driversLicense ct msg h
  | confirming_driversId =>
    rw [hs] at e
    refine stepOk_handleConfirmation env _ msg h ?_ ?_ e
    · intro f hf
      simp [confirmingDriversIdConfig] at hf
    · intro f hf
      simp only [confirmingDriversIdConfig, Option.some.injEq] at hf
      rw [← hf]
      exact preservesStepOk_confirmingDriversId_onReject
  | confirming_price =>
    rw [hs] at e
    refine stepOk_handleConfirmation env _ msg h ?_ ?_ e
    · intro f hf
      simp only [confirmingPriceConfig, Option.some.injEq] at hf
      rw [← hf]
      exact preservesStepOk_confirmingPrice_onAccept env
    · intro f hf
      simp only [confirmingPriceConfig, Option.some.injEq] at hf
      rw [← hf]
      intro t ht
      exact ht
  | sending_policy =>
    rw [hs] at e
    cases e
    exact stepOk_sendPolicy env h
  | completed =>
    rw [hs] at e
    cases e
    exact h

theorem stepOk_handleInboundMessage (env msg) {s : UserSession} (h : StepOk s) :
    StepOk (handleInboundMessage env msg s).session := by
  simp only [handleInboundMessage]
  split
  · exact h
  · split
    · split
      · next out e => exact stepOk_runStepHandler env msg (getContentType msg) h e
      · exact h
    · split
      · split
        · exact h.of_eq (by simp)
        · exact h.of_eq (by simp)
      · exact h


theorem stepOk_of_reachable {s : UserSession} (h : Reachable s) : StepOk s := by
  induction h with
  | init => unfold StepOk UserSession.init STEPS; simp
  | handle env msg _ ih => exact stepOk_handleInboundMessage env msg ih

theorem stepAt_get? {i : Nat} (h : i < STEPS.length) :
    STEPS.get? i = some (stepAt i) := by
  unfold STEPS at *
  simp only [List.length] at h
  interval_cases i <;> rfl

theorem step_completed_index {s : UserSession} (h : StepOk s)
    (e : s.step = .completed) : s.stepIndex = 7 := by
  unfold StepOk STEPS at h
  unfold UserSession.step stepAt at e
  simp only [List.length] at h
  interval_cases hi : s.stepIndex <;> simp_all

theorem step_start_index {s : UserSession} (h : StepOk s)
    (e : s.step = .start) : s.stepIndex = 0 := by
  unfold StepOk STEPS at h
  unfold UserSession.step stepAt at e
  simp only [List.length] at h
  interval_cases hi : s.stepIndex <;> simp_all

/-! ## Claim C1 -/

/-- C1: for every reachable session the step index is a valid index into the
eight-entry `STEPS` table — so the session's step is one of the eight defined
step names, namely the `stepIndex`-th entry of `STEPS` — and `nextStep()`
at the terminal `completed` step is a no-op, and `prevStep()` at the initial
`start` step is a no-op. -/
theorem c1_step_machine_invariant {s : UserSession} (h : Reachable s) :
    s.stepIndex < STEPS.length ∧
    STEPS.get? s.stepIndex = some s.step ∧
    (s.step = .completed → s.nextStep = s) ∧
    (s.step = .start → s.prevStep = s) := by
  have hok := stepOk_of_reachable h
  refine ⟨hok, stepAt_get? hok, ?_, ?_⟩
  · intro e
    have hi := step_completed_index hok e
    have hn : ¬ (s.stepIndex < STEPS.length - 1) := by
      simp only [STEPS, List.length]
      omega
    unfold UserSession.nextStep
    rw [if_neg hn]
  · intro e
    have hi := step_start_index hok e
    have hn : ¬ (0 < s.stepIndex) := by omega
    unfold UserSession.prevStep
    rw [if_neg hn]

/-- Witness for C1 at the concrete fresh session. -/
theorem c1_step_machine_invariant_witness :
    UserSession.init.stepIndex < STEPS.length ∧
    STEPS.get? UserSession.init.stepIndex = some UserSession.init.step ∧
    (UserSession.init.step = .completed →
      UserSession.init.nextStep = UserSession.init) ∧
    (UserSession.init.step = .start →
      UserSession.init.prevStep = UserSession.init) :=
  c1_step_machine_invariant Reachable.init

/-! ## Step name / step index correspondence -/

theorem step_awaiting_passport_iff {s : UserSession} :
    s.step = .awaiting_passport ↔ s.stepIndex = 1 := by
  unfold UserSession.step stepAt
  split <;> simp_all

theorem step_confirming_passport_iff {s : UserSession} :
    s.step = .confirming_passport ↔ s.stepIndex = 2 := by
  unfold UserSession.step stepAt
  split <;> simp_all

theorem step_awaiting_driversId_iff {s : UserSession} :
    s.step = .awaiting_driversId ↔ s.stepIndex = 3 := by
  unfold UserSession.step stepAt
  split <;> simp_all

theorem step_confirming_driversId_iff {s : UserSession} :
    s.step = .confirming_driversId ↔ s.stepIndex = 4 := by
  unfold UserSession.step stepAt
  split <;> simp_all

theorem step_confirming_price_iff {s : UserSession} :
    s.step = .confirming_price ↔ s.stepIndex = 5 := by
  unfold UserSession.step stepAt
  split <;> simp_all


@[simp] theorem docField_passport (s : UserSession) :
    s.docField .passport = s.passportData := rfl

@[simp] theorem docField_license (s : UserSession) :
    s.docField .driversLicense = s.driversIdData := rfl

theorem setDocumentData_docField (s : UserSession) (dt v) :
    (s.setDocumentData dt v).docField dt = v := by
  cases dt <;> rfl

/-! ## Router/pipeline bridges -/

/-- A document/photo upload at `awaiting_passport` is dispatched to the
passport document pipeline. -/
theorem router_to_passport_pipeline (env msg) {s : UserSession}
    (hstep : s.step = .awaiting_passport)
    (hct : getContentType msg = .document ∨ getContentType msg = .photo) :
    handleInboundMessage env msg s =
      processDocument env .passport (getContentType msg) msg s := by
  rcases hct with h | h <;>
    simp [handleInboundMessage, runStepHandler, hstep, h, StepName.expectsContent]

/-- A document/photo upload at `awaiting_driversId` is dispatched to the
license document pipeline. -/
theorem router_to_license_pipeline (env msg) {s : UserSession}
    (hstep : s.step = .awaiting_driversId)
    (hct : getContentType msg = .document ∨ getContentType msg = .photo) :
    handleInboundMessage env msg s =
      processDocument env .driversLicense (getContentType msg) msg s := by
  rcases hct with h | h <;>
    simp [handleInboundMessage, runStepHandler, hstep, h, StepName.expectsContent]

/-- Text with the manual-input flag set at `awaiting_passport` passes the
gate and reaches the passport pipeline. -/
theorem router_manual_text_passport (env msg) {s : UserSession}
    (hstep : s.step = .awaiting_passport)
    (hawait : s.awaitingManualInput = true)
    (hct : getContentType msg = .text) :
    handleInboundMessage env msg s =
      processDocument env .passport .text msg s := by
  simp [handleInboundMessage, runStepHandler, hstep, hct, hawait,
    StepName.expectsContent]

/-- Text with the manual-input flag set at `awaiting_driversId` passes the
gate and reaches the license pipeline. -/
theorem router_manual_text_license (env msg) {s : UserSession}
    (hstep : s.step = .awaiting_driversId)
    (hawait : s.awaitingManualInput = true)
    (hct : getContentType msg = .text) :
    handleInboundMessage env msg s =
      processDocument env .driversLicense .text msg s := by
  simp [handleInboundMessage, runStepHandler, hstep, hct, hawait,
    StepName.expectsContent]

/-- With the manual-input flag set and text content, the pipeline
short-circuits to `handleManualInput`. -/
theorem processDocument_manual_shortcut (env dt msg) {s : UserSession}
    (hawait : s.awaitingManualInput = true) :
    processDocument env dt .text msg s = handleManualInput dt msg s := by
  unfold processDocument
  rw [if_pos ⟨hawait, rfl⟩]

/-- Both automated tiers raising leads to the tier-3 manual prompt. -/
theorem processDocument_tier3 (env dt ct msg) {s : UserSession} {u : String}
    (hnm : ¬ (s.awaitingManualInput = true ∧ ct = .text))
    (hurl : env.fileUrl = .ok u)
    (hagent : env.agent = .error ())
    (hmindee : env.mindee = .error ()) :
    processDocument env dt ct msg s =
      { session :=
          { s.addToConversationHistory (apologyMsg dt) .assistant with
              awaitingManualInput := true },
        sent := [processingMessage, apologyMsg dt],
        trace := [.docAgentTier, .docMindeeTier, .docManualTier] } := by
  unfold processDocument
  rw [if_neg hnm, hurl, hagent, hmindee]

/-! ## Claim C3 -/

/-- C3: at a document-awaiting step, when the agent call and the direct
extraction call both raise, one document submission leaves the step
unchanged and sets `awaitingManualInput`; the next text message handled
for the session clears the flag, stores the text verbatim as the
document's raw value, and advances the step by one. -/
theorem c3_manual_fallback (env1 env2 : MsgEnv) (msg1 msg2 : TelegramMessage)
    {s : UserSession} {t u : String}
    (hstep : s.step = .awaiting_passport ∨ s.step = .awaiting_driversId)
    (hct1 : getContentType msg1 = .document ∨ getContentType msg1 = .photo)
    (hurl : env1.fileUrl = .ok u)
    (hagent : env1.agent = .error ())
    (hmindee : env1.mindee = .error ())
    (htext2 : getContentType msg2 = .text) (ht : msg2.text = some t) :
    (handleInboundMessage env1 msg1 s).session.awaitingManualInput = true ∧
    (handleInboundMessage env1 msg1 s).session.stepIndex = s.stepIndex ∧
    (handleInboundMessage env2 msg2
        (handleInboundMessage env1 msg1 s).session).session.awaitingManualInput
      = false ∧
    (handleInboundMessage env2 msg2
        (handleInboundMessage env1 msg1 s).session).session.stepIndex
      = s.stepIndex + 1 ∧
    (s.step = .awaiting_passport →
      (handleInboundMessage env2 msg2
        (handleInboundMessage env1 msg1 s).session).session.passportData
        = some (.raw t)) ∧
    (s.step = .awaiting_driversId →
      (handleInboundMessage env2 msg2
        (handleInboundMessage env1 msg1 s).session).session.driversIdData
        = some (.raw t)) := by
  have hnm1 : ¬ (s.awaitingManualInput = true ∧ getContentType msg1 = .text) := by
    rcases hct1 with h | h <;> simp [h]
  rcases hstep with hp | hd
  · have hi : s.stepIndex = 1 := step_awaiting_passport_iff.mp hp
    have h1 : handleInboundMessage env1 msg1 s =
        processDocument env1 .passport (getContentType msg1) msg1 s :=
      router_to_passport_pipeline env1 msg1 hp hct1
    rw [h1, processDocument_tier3 env1 .passport (getContentType msg1) msg1
          hnm1 hurl hagent hmindee]
    set s1 : UserSession :=
      { s.addToConversationHistory (apologyMsg .passport) .assistant with
          awaitingManualInput := true } with hs1
    have hs1i : s1.stepIndex = s.stepIndex := by simp [hs1]
    have hs1s : s1.step = .awaiting_passport := by
      apply step_awaiting_passport_iff.mpr
      rw [hs1i, hi]
    have h2 : handleInboundMessage env2 msg2 s1 =
        processDocument env2 .passport .text msg2 s1 :=
      router_manual_text_passport env2 msg2 hs1s rfl htext2
    rw [h2, processDocument_manual_shortcut env2 .passport msg2 rfl]
    unfold handleManualInput
    refine ⟨rfl, by simp [hs1i], ?_, ?_, ?_, ?_⟩
    · simp [UserSession.nextStep, apply_ite UserSession.awaitingManualInput]
    · rw [nextStep_stepIndex_of_lt (by simp [hs1i, hi])]
      simp [hs1i]
    · intro _
      simp [ht]
    · intro hcontra
      rw [hp] at hcontra
      cases hcontra
  · have hi : s.stepIndex = 3 := step_awaiting_driversId_iff.mp hd
    have h1 : handleInboundMessage env1 msg1 s =
        processDocument env1 .driversLicense (getContentType msg1) msg1 s :=
      router_to_license_pipeline env1 msg1 hd hct1
    rw [h1, processDocument_tier3 env1 .driversLicense (getContentType msg1)
          msg1 hnm1 hurl hagent hmindee]
    set s1 : UserSession :=
      { s.addToConversationHistory (apologyMsg .driversLicense) .assistant with
          awaitingManualInput := true } with hs1
    have hs1i : s1.stepIndex = s.stepIndex := by simp [hs1]
    have hs1s : s1.step = .awaiting_driversId := by
      apply step_awaiting_driversId_iff.mpr
      rw [hs1i, hi]
    have h2 : handleInboundMessage env2 msg2 s1 =
        processDocument env2 .driversLicense .text msg2 s1 :=
      router_manual_text_license env2 msg2 hs1s rfl htext2
    rw [h2, processDocument_manual_shortcut env2 .driversLicense msg2 rfl]
    unfold handleManualInput
    refine ⟨rfl, by simp [hs1i], ?_, ?_, ?_, ?_⟩
    · simp [UserSession.nextStep, apply_ite UserSession.awaitingManualInput]
    · rw [nextStep_stepIndex_of_lt (by simp [hs1i, hi])]
      simp [hs1i]
    · intro hcontra
      rw [hd] at hcontra
      cases hcontra
    · intro _
      simp [ht]

/-- Witness for C3: photo upload at `awaiting_passport` with both services
failing, then the manual text "John Doe P123 1990". -/
theorem c3_manual_fallback_witness :
    (handleInboundMessage
      { fileUrl := Except.ok "https://file", agent := Except.error (),
        mindee := Except.error (), policy := Except.ok () }
      { hasPhoto := true, hasDocument := false,
        firstEntityIsBotCommand := false, text := none }
      { UserSession.init with stepIndex := 1 }).session.awaitingManualInput
      = true ∧
    (handleInboundMessage
      { fileUrl := Except.error "e", agent := Except.error (),
        mindee := Except.error (), policy := Except.ok () }
      { hasPhoto := false, hasDocument := false,
        firstEntityIsBotCommand := false, text := some "John Doe P123 1990" }
      (handleInboundMessage
        { fileUrl := Except.ok "https://file", agent := Except.error (),
          mindee := Except.error (), policy := Except.ok () }
        { hasPhoto := true, hasDocument := false,
          firstEntityIsBotCommand := false, text := none }
        { UserSession.init with stepIndex := 1 }).session).session.passportData
      = some (.raw "John Doe P123 1990") := by
  have h := c3_manual_fallback
    { fileUrl := Except.ok "https://file", agent := Except.error (),
      mindee := Except.error (), policy := Except.ok () }
    { fileUrl := Except.error "e", agent := Except.error (),
      mindee := Except.error (), policy := Except.ok () }
    { hasPhoto := true, hasDocument := false,
      firstEntityIsBotCommand := false, text := none }
    { hasPhoto := false, hasDocument := false,
      firstEntityIsBotCommand := false, text := some "John Doe P123 1990" }
    (s := { UserSession.init with stepIndex := 1 })
    (t := "John Doe P123 1990") (u := "https://file")
    (Or.inl (by decide)) (Or.inr (by decide)) rfl rfl rfl (by decide) rfl
  exact ⟨h.1, h.2.2.2.2.1 (by decide)⟩

/-! ## Claim C4 -/

/-- C4: within one pipeline invocation (document/photo upload, URL
resolved) the tiers run strictly in order: the Mindee tier runs only when
the agent call raised; a successful agent call — including a `[FAILED]`
marker reply, which leaves the step unchanged — ends the pipeline with only
tier 1 run; the manual tier runs only when both earlier tiers raised; and
with a raising agent but a succeeding extraction service the structured
field is stored, the step advances by one, and tier 3 never runs. -/
theorem c4_tier_ordering (env dt ct msg) {s : UserSession} {u : String}
    (hstep : s.step = .awaiting_passport ∨ s.step = .awaiting_driversId)
    (hct : ct = ContentType.document ∨ ct = ContentType.photo)
    (hurl : env.fileUrl = .ok u) :
    (TraceEvent.docMindeeTier ∈ (processDocument env dt ct msg s).trace →
      env.agent = .error ()) ∧
    (TraceEvent.docManualTier ∈ (processDocument env dt ct msg s).trace →
      env.agent = .error () ∧ env.mindee = .error ()) ∧
    (∀ o, env.agent = .ok o →
      (processDocument env dt ct msg s).trace = [.docAgentTier] ∧
      (jsEndsWith o.finalOutput "[FAILED]" = true →
        (processDocument env dt ct msg s).session.stepIndex = s.stepIndex)) ∧
    (∀ d, env.agent = .error () → env.mindee = .ok d →
      (processDocument env dt ct msg s).session.docField dt
        = some (.structured d) ∧
      (processDocument env dt ct msg s).session.stepIndex = s.stepIndex + 1 ∧
      TraceEvent.docManualTier ∉ (processDocument env dt ct msg s).trace) := by
  have hnm : ¬ (s.awaitingManualInput = true ∧ ct = ContentType.text) := by
    rcases hct with h | h <;> simp [h]
  have hlt : s.stepIndex < 7 := by
    rcases hstep with h | h
    · rw [step_awaiting_passport_iff.mp h]; omega
    · rw [step_awaiting_driversId_iff.mp h]; omega
  unfold processDocument
  rw [if_neg hnm, hurl]
  cases hag : env.agent with
  | ok o =>
    by_cases hf : jsEndsWith o.finalOutput "[FAILED]" = true
    · refine ⟨by simp [hf], by simp [hf], ?_, ?_⟩
      · intro o' ho'
        injection ho' with e
        subst e
        exact ⟨by simp [hf], fun _ => by simp [hf]⟩
      · intro d hcontra
        cases hcontra
    · simp only [Bool.not_eq_true] at hf
      refine ⟨by simp [hf], by simp [hf], ?_, ?_⟩
      · intro o' ho'
        injection ho' with e
        subst e
        exact ⟨by simp [hf], fun hcontra => by rw [hf] at hcontra; cases hcontra⟩
      · intro d hcontra
        cases hcontra
  | error v =>
    cases hmind : env.mindee with
    | ok d =>
      refine ⟨fun _ => rfl, fun hmem => by simp at hmem, ?_, ?_⟩
      · intro o' ho'
        cases ho'
      · intro d' _ hd'
        injection hd' with e
        subst e
        refine ⟨?_, ?_, by simp⟩
        · cases dt <;> simp
        · rw [nextStep_stepIndex_of_lt (by simp [hlt])]
          simp
    | error w =>
      refine ⟨fun _ => rfl, fun _ => ⟨rfl, rfl⟩, ?_, ?_⟩
      · intro o' ho'
        cases ho'
      · intro d' _ hd'
        cases hd'

/-- Witness for C4: raising agent, succeeding Mindee, at
`awaiting_passport`. -/
theorem c4_tier_ordering_witness :
    (processDocument
      { fileUrl := Except.ok "https://file", agent := Except.error (),
        mindee := Except.ok (.passport
          { name := "JOHN", surname := "DOE", dateOfBirth := "1990-01-01",
            passportNumber := "P123", dateOfIssue := "2015-01-01",
            dateOfExpiry := "2025-01-01" }),
        policy := Except.ok () }
      .passport .photo
      { hasPhoto := true, hasDocument := false,
        firstEntityIsBotCommand := false, text := none }
      { UserSession.init with stepIndex := 1 }).session.docField .passport
      = some (.structured (.passport
          { name := "JOHN", surname := "DOE", dateOfBirth := "1990-01-01",
            passportNumber := "P123", dateOfIssue := "2015-01-01",
            dateOfExpiry := "2025-01-01" })) ∧
    (processDocument
      { fileUrl := Except.ok "https://file", agent := Except.error (),
        mindee := Except.ok (.passport
          { name := "JOHN", surname := "DOE", dateOfBirth := "1990-01-01",
            passportNumber := "P123", dateOfIssue := "2015-01-01",
            dateOfExpiry := "2025-01-01" }),
        policy := Except.ok () }
      .passport .photo
      { hasPhoto := true, hasDocument := false,
        firstEntityIsBotCommand := false, text := none }
      { UserSession.init with stepIndex := 1 }).session.stepIndex
      = { UserSession.init with stepIndex := 1 }.stepIndex + 1 ∧
    TraceEvent.docManualTier ∉ (processDocument
      { fileUrl := Except.ok "https://file", agent := Except.error (),
        mindee := Except.ok (.passport
          { name := "JOHN", surname := "DOE", dateOfBirth := "1990-01-01",
            passportNumber := "P123", dateOfIssue := "2015-01-01",
            dateOfExpiry := "2025-01-01" }),
        policy := Except.ok () }
      .passport .photo
      { hasPhoto := true, hasDocument := false,
        firstEntityIsBotCommand := false, text := none }
      { UserSession.init with stepIndex := 1 }).trace := by
  have h := c4_tier_ordering
    { fileUrl := Except.ok "https://file", agent := Except.error (),
      mindee := Except.ok (.passport
        { name := "JOHN", surname := "DOE", dateOfBirth := "1990-01-01",
          passportNumber := "P123", dateOfIssue := "2015-01-01",
          dateOfExpiry := "2025-01-01" }),
      policy := Except.ok () }
    .passport .photo
    { hasPhoto := true, hasDocument := false,
      firstEntityIsBotCommand := false, text := none }
    (s := { UserSession.init with stepIndex := 1 })
    (u := "https://file")
    (Or.inl (by decide)) (Or.inr rfl) rfl
  exact h.2.2.2 _ rfl rfl

/-! ## Claim C5 -/

/-- C5 counterexample: the source strips the FIRST occurrence of
`[CONFIRMED]` (JS `String.replace` semantics), not the terminal one, so
for a reply carrying the marker twice the user-visible message is not "the
reply with the marker stripped": it still ends with `[CONFIRMED]`. -/
theorem c5_confirmed_marker_counterexample :
    jsEndsWith "Sounds good [CONFIRMED] ok [CONFIRMED]" "[CONFIRMED]" = true ∧
    (handleConfirmation
      { fileUrl := Except.error "e",
        agent := Except.ok
          { finalOutput := "Sounds good [CONFIRMED] ok [CONFIRMED]",
            history := [], passportWrite := none, driversWrite := none },
        mindee := Except.error (), policy := Except.ok () }
      confirmingPassportConfig
      { hasPhoto := false, hasDocument := false,
        firstEntityIsBotCommand := false, text := some "looks ok" }
      { UserSession.init with stepIndex := 2 }).map HandlerOut.sent
      = some ["Sounds good  ok [CONFIRMED]"] ∧
    "Sounds good  ok [CONFIRMED]"
      ≠ specStrippedReply "Sounds good [CONFIRMED] ok [CONFIRMED]"
          "[CONFIRMED]" := by
  exact ⟨by decide, by decide, by decide⟩

/-- C5 (amended): when the agent reply ends in `[CONFIRMED]`, the message
sent to the user is the reply with the FIRST occurrence of the marker
removed and trimmed (identical to stripping the terminal marker whenever
the marker occurs only once), and the step's accept path runs: the
`onAccept` callback when defined, otherwise the default advance. -/
theorem c5_confirmed_marker_amended (env cfg msg) {s : UserSession}
    {o : AgentOutcome} (hag : env.agent = .ok o)
    (hm : jsEndsWith o.finalOutput "[CONFIRMED]" = true) :
    ∃ r, handleConfirmation env cfg msg s = some r ∧
      r.sent.head? = some (jsTrim (removeFirst o.finalOutput "[CONFIRMED]")) ∧
      (cfg.onAccept = none → r.session =
        ((applyAgentOutcome s o).addToConversationHistory
          (jsTrim (removeFirst o.finalOutput "[CONFIRMED]")) .assistant).nextStep) ∧
      (∀ f, cfg.onAccept = some f → r.session =
        (f ((applyAgentOutcome s o).addToConversationHistory
          (jsTrim (removeFirst o.finalOutput "[CONFIRMED]")) .assistant)).1) := by
  unfold handleConfirmation getAIConfirmation
  rw [hag]
  simp only [hm, if_true]
  cases hacc : cfg.onAccept with
  | some f =>
    refine ⟨_, rfl, by simp, ?_, ?_⟩
    · intro hcontra; cases hcontra
    · intro f' hf'
      injection hf' with e
      subst e
      rfl
  | none =>
    refine ⟨_, rfl, by simp, fun _ => rfl, ?_⟩
    · intro f' hf'
      cases hf'

/-- Witness for C5 (amended): the spec's own example
`"Sounds good [CONFIRMED]"` yields `"Sounds good"` and the default advance
from `confirming_passport` to `awaiting_driversId`. -/
theorem c5_confirmed_marker_amended_witness :
    ∃ r, handleConfirmation
      { fileUrl := Except.error "e",
        agent := Except.ok
          { finalOutput := "Sounds good [CONFIRMED]",
            history := [], passportWrite := none, driversWrite := none },
        mindee := Except.error (), policy := Except.ok () }
      confirmingPassportConfig
      { hasPhoto := false, hasDocument := false,
        firstEntityIsBotCommand := false, text := some "looks ok" }
      { UserSession.init with stepIndex := 2 } = some r ∧
      r.sent.head? = some "Sounds good" ∧
      r.session.step = .awaiting_driversId := by
  obtain ⟨r, hr, hh, hdef, _⟩ := c5_confirmed_marker_amended
    { fileUrl := Except.error "e",
      agent := Except.ok
        { finalOutput := "Sounds good [CONFIRMED]",
          history := [], passportWrite := none, driversWrite := none },
      mindee := Except.error (), policy := Except.ok () }
    confirmingPassportConfig
    { hasPhoto := false, hasDocument := false,
      firstEntityIsBotCommand := false, text := some "looks ok" }
    (s := { UserSession.init with stepIndex := 2 })
    rfl (by decide)
  refine ⟨r, hr, hh.trans (by decide), ?_⟩
  rw [hdef rfl]
  decide

/-! ## Claim C6 -/

/-- C6: when the agent call raises at a confirmation step, an input whose
lower-cased trimmed form is "yes" triggers the accept path (`onAccept` when
defined, else default advance), "no" triggers the reject path (`onReject`
when defined, else default retreat), and any other input yields only the
yes/no re-prompt with the session left exactly unchanged. -/
theorem c6_manual_yes_no_matching (env cfg msg) {s : UserSession} {t : String}
    (hag : env.agent = .error ())
    (ht : msg.text = some t)
    (hstep : s.step = .confirming_passport ∨ s.step = .confirming_driversId ∨
             s.step = .confirming_price) :
    ∃ messages, getMessagesForStep s.step = some messages ∧
      (guessDecision t = .yes → ∃ r,
        handleConfirmation env cfg msg s = some r ∧
        r.sent.head? = some messages.successMessage ∧
        (cfg.onAccept = none → r.session =
          (s.addToConversationHistory messages.successMessage .assistant).nextStep) ∧
        (∀ f, cfg.onAccept = some f → r.session =
          (f (s.addToConversationHistory messages.successMessage .assistant)).1)) ∧
      (guessDecision t = .no → ∃ r,
        handleConfirmation env cfg msg s = some r ∧
        r.sent.head? = some messages.retryMessage ∧
        (cfg.onReject = none → r.session =
          (s.addToConversationHistory messages.retryMessage .assistant).prevStep) ∧
        (∀ f, cfg.onReject = some f → r.session =
          (f (s.addToConversationHistory messages.retryMessage .assistant)).1)) ∧
      (guessDecision t = .unparseable →
        handleConfirmation env cfg msg s =
          some { session := s, sent := [yesNoPrompt],
                 trace := [.confManualTier] }) := by
  obtain ⟨messages, hmsg⟩ : ∃ m, getMessagesForStep s.step = some m := by
    rcases hstep with h | h | h <;> rw [h] <;> exact ⟨_, rfl⟩
  refine ⟨messages, hmsg, ?_, ?_, ?_⟩
  · intro hy
    unfold handleConfirmation getAIConfirmation
    rw [hag]
    simp only [ht, Option.getD_some, hy, hmsg]
    cases hacc : cfg.onAccept with
    | some f =>
      refine ⟨_, rfl, rfl, ?_, ?_⟩
      · intro hc
        cases hc
      · intro f' hf'
        injection hf' with e
        subst e
        rfl
    | none =>
      refine ⟨_, rfl, rfl, fun _ => rfl, ?_⟩
      intro f' hf'
      cases hf'
  · intro hn
    unfold handleConfirmation getAIConfirmation
    rw [hag]
    simp only [ht, Option.getD_some, hn, hmsg]
    cases hrej : cfg.onReject with
    | some f =>
      refine ⟨_, rfl, rfl, ?_, ?_⟩
      · intro hc
        cases hc
      · intro f' hf'
        injection hf' with e
        subst e
        rfl
    | none =>
      refine ⟨_, rfl, rfl, fun _ => rfl, ?_⟩
      intro f' hf'
      cases hf'
  · intro hu
    unfold handleConfirmation getAIConfirmation
    rw [hag]
    simp only [ht, Option.getD_some, hu]

/-- Witness for C6: with a raising agent at `confirming_passport`,
`"  YES  "` advances to `awaiting_driversId` while `"maybe"` yields the
re-prompt and no change at all. -/
theorem c6_manual_yes_no_matching_witness :
    (∃ r, handleConfirmation
      { fileUrl := Except.error "e", agent := Except.error (),
        mindee := Except.error (), policy := Except.ok () }
      confirmingPassportConfig
      { hasPhoto := false, hasDocument := false,
        firstEntityIsBotCommand := false, text := some "  YES  " }
      { UserSession.init with stepIndex := 2 } = some r ∧
      r.session.step = .awaiting_driversId) ∧
    handleConfirmation
      { fileUrl := Except.error "e", agent := Except.error (),
        mindee := Except.error (), policy := Except.ok () }
      confirmingPassportConfig
      { hasPhoto := false, hasDocument := false,
        firstEntityIsBotCommand := false, text := some "maybe" }
      { UserSession.init with stepIndex := 2 } =
      some { session := { UserSession.init with stepIndex := 2 },
             sent := [yesNoPrompt], trace := [.confManualTier] } := by
  constructor
  · obtain ⟨messages, hmsg, hyes, _, _⟩ := c6_manual_yes_no_matching
      { fileUrl := Except.error "e", agent := Except.error (),
        mindee := Except.error (), policy := Except.ok () }
      confirmingPassportConfig
      { hasPhoto := false, hasDocument := false,
        firstEntityIsBotCommand := false, text := some "  YES  " }
      (s := { UserSession.init with stepIndex := 2 })
      (t := "  YES  ") rfl rfl (Or.inl (by decide))
    obtain ⟨r, hr, _, hdef, _⟩ := hyes (by decide)
    refine ⟨r, hr, ?_⟩
    rw [hdef rfl]
    apply step_awaiting_driversId_iff.mpr
    rw [nextStep_stepIndex_of_lt (by simp)]
    simp
  · obtain ⟨messages, hmsg, _, _, hunp⟩ := c6_manual_yes_no_matching
      { fileUrl := Except.error "e", agent := Except.error (),
        mindee := Except.error (), policy := Except.ok () }
      confirmingPassportConfig
      { hasPhoto := false, hasDocument := false,
        firstEntityIsBotCommand := false, text := some "maybe" }
      (s := { UserSession.init with stepIndex := 2 })
      (t := "maybe") rfl rfl (Or.inl (by decide))
    exact hunp (by decide)

/-! ## Claim C7 -/

/-- C7: when the agent call succeeds but the reply carries neither marker,
the reply is sent and appended to the transcript with no state transition
and without reaching the manual string-matching tier; the manual tier is
reached only when the agent call raises. -/
theorem c7_side_question_asymmetry (env cfg msg) {s : UserSession} :
    (∀ o, env.agent = .ok o →
      jsEndsWith o.finalOutput "[CONFIRMED]" = false →
      jsEndsWith o.finalOutput "[REJECTED]" = false →
      handleConfirmation env cfg msg s =
        some { session := (applyAgentOutcome s o).addToConversationHistory
                 o.finalOutput .assistant,
               sent := [o.finalOutput], trace := [] } ∧
      ((applyAgentOutcome s o).addToConversationHistory
        o.finalOutput .assistant).stepIndex = s.stepIndex) ∧
    (∀ r, handleConfirmation env cfg msg s = some r →
      TraceEvent.confManualTier ∈ r.trace → env.agent = .error ()) := by
  constructor
  · intro o hag hc hrj
    unfold handleConfirmation getAIConfirmation
    rw [hag]
    simp only [hc, hrj]
    exact ⟨by simp, by simp⟩
  · intro r hr htrace
    unfold handleConfirmation getAIConfirmation at hr
    cases hag : env.agent with
    | error v => rfl
    | ok o =>
      rw [hag] at hr
      by_cases hc : jsEndsWith o.finalOutput "[CONFIRMED]" = true
      · simp only [hc, if_true] at hr
        cases hacc : cfg.onAccept with
        | some f =>
          rw [hacc] at hr
          have e := Option.some.inj hr
          rw [← e] at htrace
          simp at htrace
        | none =>
          rw [hacc] at hr
          have e := Option.some.inj hr
          rw [← e] at htrace
          simp at htrace
      · simp only [Bool.not_eq_true] at hc
        simp only [hc] at hr
        by_cases hrj : jsEndsWith o.finalOutput "[REJECTED]" = true
        · simp only [hrj, if_true] at hr
          cases hrej : cfg.onReject with
          | some f =>
            rw [hrej] at hr
            have e := Option.some.inj hr
            rw [← e] at htrace
            simp at htrace
          | none =>
            rw [hrej] at hr
            have e := Option.some.inj hr
            rw [← e] at htrace
            simp at htrace
        · simp only [Bool.not_eq_true] at hrj
          simp only [hrj] at hr
          have e := Option.some.inj hr
          rw [← e] at htrace
          simp at htrace

/-- Witness for C7: a markerless conversational reply is relayed with no
transition, at `confirming_price`. -/
theorem c7_side_question_asymmetry_witness :
    handleConfirmation
      { fileUrl := Except.error "e",
        agent := Except.ok
          { finalOutput := "The price covers a full yearly policy.",
            history := [], passportWrite := none, driversWrite := none },
        mindee := Except.error (), policy := Except.ok () }
      (confirmingPriceConfig
        { fileUrl := Except.error "e",
          agent := Except.ok
            { finalOutput := "The price covers a full yearly policy.",
              history := [], passportWrite := none, driversWrite := none },
          mindee := Except.error (), policy := Except.ok () })
      { hasPhoto := false, hasDocument := false,
        firstEntityIsBotCommand := false, text := some "what do I get?" }
      { UserSession.init with stepIndex := 5 } =
      some { session := (applyAgentOutcome
               { UserSession.init with stepIndex := 5 }
               { finalOutput := "The price covers a full yearly policy.",
                 history := [], passportWrite := none,
                 driversWrite := none }).addToConversationHistory
                 "The price covers a full yearly policy." .assistant,
             sent := ["The price covers a full yearly policy."],
             trace := [] } := by
  have h := (c7_side_question_asymmetry
    { fileUrl := Except.error "e",
      agent := Except.ok
        { finalOutput := "The price covers a full yearly policy.",
          history := [], passportWrite := none, driversWrite := none },
      mindee := Except.error (), policy := Except.ok () }
    (confirmingPriceConfig
      { fileUrl := Except.error "e",
        agent := Except.ok
          { finalOutput := "The price covers a full yearly policy.",
            history := [], passportWrite := none, driversWrite := none },
        mindee := Except.error (), policy := Except.ok () })
    { hasPhoto := false, hasDocument := false,
      firstEntityIsBotCommand := false, text := some "what do I get?" }
    (s := { UserSession.init with stepIndex := 5 })).1
    _ rfl (by decide) (by decide)
  exact h.1

/-! ## Claim C10 -/

/-- A reply ending in `[REJECTED]` cannot also end in `[CONFIRMED]`, so
the resolver's rejected branch is reached even though the source tests the
confirmed marker first. -/
theorem rejected_not_confirmed {x : String}
    (h : jsEndsWith x "[REJECTED]" = true) :
    jsEndsWith x "[CONFIRMED]" = false := by
  by_contra hcon
  simp only [Bool.not_eq_false] at hcon
  unfold jsEndsWith at h hcon
  rw [List.isSuffixOf_iff_suffix] at h hcon
  have hsub := List.suffix_of_suffix_length_le h hcon (by decide)
  have hnot : ¬ ("[REJECTED]".data <:+ "[CONFIRMED]".data) := by decide
  exact hnot hsub

/-- C10: at `confirming_price` a rejection — whether agent-parsed
(`[REJECTED]` reply) or manual ("no" under a raising agent) — runs the
step's `onReject` callback, which changes nothing: the step stays
`confirming_price`, no document data is modified, and the default retreat
never applies. -/
theorem c10_price_reject_noop (env msg) {s : UserSession}
    (hstep : s.step = .confirming_price) :
    (∀ o, env.agent = .ok o →
      jsEndsWith o.finalOutput "[REJECTED]" = true →
      ∃ r, handleConfirmation env (confirmingPriceConfig env) msg s = some r ∧
        r.session.step = .confirming_price ∧
        (o.passportWrite = none → r.session.passportData = s.passportData) ∧
        (o.driversWrite = none → r.session.driversIdData = s.driversIdData) ∧
        r.session.awaitingManualInput = s.awaitingManualInput) ∧
    (env.agent = .error () → ∀ t, msg.text = some t →
      guessDecision t = .no →
      ∃ r, handleConfirmation env (confirmingPriceConfig env) msg s = some r ∧
        r.session.step = .confirming_price ∧
        r.session.passportData = s.passportData ∧
        r.session.driversIdData = s.driversIdData ∧
        r.session.awaitingManualInput = s.awaitingManualInput) := by
  constructor
  · intro o hag hrj
    have hc := rejected_not_confirmed hrj
    unfold handleConfirmation getAIConfirmation
    rw [hag]
    simp only [hc, hrj, if_true]
    refine ⟨_, rfl, ?_, ?_, ?_, ?_⟩
    · unfold UserSession.step at hstep ⊢
      simp only [addToConversationHistory_stepIndex, applyAgentOutcome_stepIndex]
      exact hstep
    · intro hw
      simp [applyAgentOutcome_passportData_of_none s hw]
    · intro hw
      simp [applyAgentOutcome_driversIdData_of_none s hw]
    · simp
  · intro hag t ht hno
    unfold handleConfirmation getAIConfirmation
    rw [hag]
    simp only [ht, Option.getD_some, hno, hstep]
    rw [show getMessagesForStep StepName.confirming_price =
          some { retryMessage := "We apologize, but $100 is the only available price for this insurance.\n\nPlease respond with 'yes' to continue or 'no' if you don't want to proceed.",
                 successMessage := "Great! We'll send you your insurance shortly." } from rfl]
    refine ⟨_, rfl, ?_, by simp, by simp, by simp⟩
    unfold UserSession.step at hstep ⊢
    simp only [addToConversationHistory_stepIndex]
    exact hstep

/-- Witness for C10: both rejection routes at `confirming_price` leave the
step and the stored documents unchanged. -/
theorem c10_price_reject_noop_witness :
    (∃ r, handleConfirmation
      { fileUrl := Except.error "e",
        agent := Except.ok
          { finalOutput := "Ok, let us know if you change your mind. [REJECTED]",
            history := [], passportWrite := none, driversWrite := none },
        mindee := Except.error (), policy := Except.ok () }
      (confirmingPriceConfig
        { fileUrl := Except.error "e",
          agent := Except.ok
            { finalOutput := "Ok, let us know if you change your mind. [REJECTED]",
              history := [], passportWrite := none, driversWrite := none },
          mindee := Except.error (), policy := Except.ok () })
      { hasPhoto := false, hasDocument := false,
        firstEntityIsBotCommand := false, text := some "no thanks" }
      { UserSession.init with
          stepIndex := 5, passportData := some (.raw "pp") } = some r ∧
      r.session.step = .confirming_price ∧
      r.session.passportData = some (.raw "pp")) ∧
    (∃ r, handleConfirmation
      { fileUrl := Except.error "e", agent := Except.error (),
        mindee := Except.error (), policy := Except.ok () }
      (confirmingPriceConfig
        { fileUrl := Except.error "e", agent := Except.error (),
          mindee := Except.error (), policy := Except.ok () })
      { hasPhoto := false, hasDocument := false,
        firstEntityIsBotCommand := false, text := some " No " }
      { UserSession.init with
          stepIndex := 5, passportData := some (.raw "pp") } = some r ∧
      r.session.step = .confirming_price ∧
      r.session.passportData = some (.raw "pp")) := by
  constructor
  · obtain ⟨r, hr, h1, h2, h3, h4⟩ := (c10_price_reject_noop
      { fileUrl := Except.error "e",
        agent := Except.ok
          { finalOutput := "Ok, let us know if you change your mind. [REJECTED]",
            history := [], passportWrite := none, driversWrite := none },
        mindee := Except.error (), policy := Except.ok () }
      { hasPhoto := false, hasDocument := false,
        firstEntityIsBotCommand := false, text := some "no thanks" }
      (s := { UserSession.init with
                stepIndex := 5, passportData := some (.raw "pp") })
      (by decide)).1 _ rfl (by decide)
    exact ⟨r, hr, h1, (h2 rfl).trans rfl⟩
  · obtain ⟨r, hr, h1, h2, h3, h4⟩ := (c10_price_reject_noop
      { fileUrl := Except.error "e", agent := Except.error (),
        mindee := Except.error (), policy := Except.ok () }
      { hasPhoto := false, hasDocument := false,
        firstEntityIsBotCommand := false, text := some " No " }
      (s := { UserSession.init with
                stepIndex := 5, passportData := some (.raw "pp") })
      (by decide)).2 rfl " No " rfl (by decide)
    exact ⟨r, hr, h1, h2.trans rfl⟩

/-! ## Equation lemmas used by the round-trip claim -/

/-- Manual-fallback "no" at a confirmation step: the generic result. -/
theorem handleConfirmation_manual_no (env cfg msg) {s : UserSession}
    {t : String} {messages : StepMessages}
    (hag : env.agent = .error ()) (ht : msg.text = some t)
    (hno : guessDecision t = .no)
    (hmsg : getMessagesForStep s.step = some messages) :
    handleConfirmation env cfg msg s = some (match cfg.onReject with
      | some f =>
        { session := (f (s.addToConversationHistory messages.retryMessage
            .assistant)).1,
          sent := messages.retryMessage ::
            (f (s.addToConversationHistory messages.retryMessage .assistant)).2,
          trace := [.confManualTier] }
      | none =>
        { session := (s.addToConversationHistory messages.retryMessage
            .assistant).prevStep,
          sent := [messages.retryMessage], trace := [.confManualTier] }) := by
  unfold handleConfirmation getAIConfirmation
  rw [hag]
  simp only [ht, Option.getD_some, hno, hmsg]
  cases cfg.onReject <;> rfl

/-- Manual-fallback "yes" at a confirmation step: the generic result. -/
theorem handleConfirmation_manual_yes (env cfg msg) {s : UserSession}
    {t : String} {messages : StepMessages}
    (hag : env.agent = .error ()) (ht : msg.text = some t)
    (hyes : guessDecision t = .yes)
    (hmsg : getMessagesForStep s.step = some messages) :
    handleConfirmation env cfg msg s = some (match cfg.onAccept with
      | some f =>
        { session := (f (s.addToConversationHistory messages.successMessage
            .assistant)).1,
          sent := messages.successMessage ::
            (f (s.addToConversationHistory messages.successMessage .assistant)).2,
          trace := [.confManualTier] }
      | none =>
        { session := (s.addToConversationHistory messages.successMessage
            .assistant).nextStep,
          sent := [messages.successMessage], trace := [.confManualTier] }) := by
  unfold handleConfirmation getAIConfirmation
  rw [hag]
  simp only [ht, Option.getD_some, hyes, hmsg]
  cases cfg.onAccept <;> rfl

/-- Tier-2 success (agent raised, Mindee succeeded): the generic result. -/
theorem processDocument_tier2 (env dt ct msg) {s : UserSession}
    {u : String} {d : StructuredDoc}
    (hnm : ¬ (s.awaitingManualInput = true ∧ ct = ContentType.text))
    (hurl : env.fileUrl = .ok u) (hag : env.agent = .error ())
    (hmind : env.mindee = .ok d) :
    processDocument env dt ct msg s =
      { session := ((s.setDocumentData dt
            (some (.structured d))).addToConversationHistory
            (createDocumentSummary d dt) .assistant).nextStep,
        sent := [processingMessage, createDocumentSummary d dt],
        trace := [.docAgentTier, .docMindeeTier] } := by
  unfold processDocument
  rw [if_neg hnm, hurl, hag, hmind]

/-- Text at `confirming_passport` dispatches to the confirmation resolver
with the passport step config. -/
theorem router_conf_passport (env msg) {s : UserSession} {out : HandlerOut}
    (hstep : s.step = .confirming_passport)
    (hct : getContentType msg = .text)
    (hconf : handleConfirmation env confirmingPassportConfig msg s = some out) :
    handleInboundMessage env msg s = out := by
  simp [handleInboundMessage, runStepHandler, hstep, hct, hconf,
    StepName.expectsContent]

/-- Text at `confirming_driversId` dispatches to the confirmation resolver
with the license step config. -/
theorem router_conf_driversId (env msg) {s : UserSession} {out : HandlerOut}
    (hstep : s.step = .confirming_driversId)
    (hct : getContentType msg = .text)
    (hconf : handleConfirmation env confirmingDriversIdConfig msg s = some out) :
    handleInboundMessage env msg s = out := by
  simp [handleInboundMessage, runStepHandler, hstep, hct, hconf,
    StepName.expectsContent]

/-! ## Claim C8 -/

/-- C8: rejecting at `confirming_passport` clears the stored passport data
and returns to `awaiting_passport` while leaving the other document field
untouched; resubmitting (tier-2 extraction), confirming the passport
again, and submitting the second document reaches `confirming_driversId`
with the resubmitted passport fields intact. -/
theorem c8_reject_resubmit_roundtrip
    (env1 env2 env3 env4 : MsgEnv) (m1 m2 m3 m4 : TelegramMessage)
    {s : UserSession} {t1 t3 u2 u4 : String} {d2 e4 : StructuredDoc}
    (hstep : s.step = .confirming_passport)
    (hct1 : getContentType m1 = .text) (ht1 : m1.text = some t1)
    (hno1 : guessDecision t1 = .no) (hag1 : env1.agent = .error ())
    (hct2 : getContentType m2 = .document ∨ getContentType m2 = .photo)
    (hurl2 : env2.fileUrl = .ok u2) (hag2 : env2.agent = .error ())
    (hmind2 : env2.mindee = .ok d2)
    (hct3 : getContentType m3 = .text) (ht3 : m3.text = some t3)
    (hyes3 : guessDecision t3 = .yes) (hag3 : env3.agent = .error ())
    (hct4 : getContentType m4 = .document ∨ getContentType m4 = .photo)
    (hurl4 : env4.fileUrl = .ok u4) (hag4 : env4.agent = .error ())
    (hmind4 : env4.mindee = .ok e4) :
    let s1 := (handleInboundMessage env1 m1 s).session
    let s2 := (handleInboundMessage env2 m2 s1).session
    let s3 := (handleInboundMessage env3 m3 s2).session
    let s4 := (handleInboundMessage env4 m4 s3).session
    s1.step = .awaiting_passport ∧ s1.passportData = none ∧
    s1.driversIdData = s.driversIdData ∧
    s2.step = .confirming_passport ∧
    s2.passportData = some (.structured d2) ∧
    s3.step = .awaiting_driversId ∧
    s3.passportData = some (.structured d2) ∧
    s4.step = .confirming_driversId ∧
    s4.passportData = some (.structured d2) ∧
    s4.driversIdData = some (.structured e4) := by
  intro s1 s2 s3 s4
  have hi : s.stepIndex = 2 := step_confirming_passport_iff.mp hstep
  -- message 1: manual rejection at confirming_passport
  obtain ⟨M1, hmsg1⟩ : ∃ m, getMessagesForStep s.step = some m :=
    ⟨_, by rw [hstep]; rfl⟩
  have e1 := router_conf_passport env1 m1 hstep hct1
    (handleConfirmation_manual_no env1 confirmingPassportConfig m1
      hag1 ht1 hno1 hmsg1)
  have hs1 : s1 = ((s.addToConversationHistory M1.retryMessage
      .assistant).setDocumentData .passport none).prevStep := by
    show (handleInboundMessage env1 m1 s).session = _
    rw [e1]
    rfl
  have hs1i : s1.stepIndex = 1 := by
    rw [hs1, prevStep_stepIndex_of_pos (by simp [hi])]
    simp [hi]
  have hs1step : s1.step = .awaiting_passport :=
    step_awaiting_passport_iff.mpr hs1i
  have hs1p : s1.passportData = none := by rw [hs1]; simp
  have hs1d : s1.driversIdData = s.driversIdData := by rw [hs1]; simp
  -- message 2: resubmission, tier-2 extraction succeeds
  have hnm2 : ¬ (s1.awaitingManualInput = true ∧
      getContentType m2 = ContentType.text) := by
    rcases hct2 with h | h <;> simp [h]
  have e2 : handleInboundMessage env2 m2 s1 =
      { session := ((s1.setDocumentData .passport
            (some (.structured d2))).addToConversationHistory
            (createDocumentSummary d2 .passport) .assistant).nextStep,
        sent := [processingMessage, createDocumentSummary d2 .passport],
        trace := [.docAgentTier, .docMindeeTier] } := by
    rw [router_to_passport_pipeline env2 m2 hs1step hct2,
      processDocument_tier2 env2 .passport (getContentType m2) m2
        hnm2 hurl2 hag2 hmind2]
  have hs2 : s2 = ((s1.setDocumentData .passport
      (some (.structured d2))).addToConversationHistory
      (createDocumentSummary d2 .passport) .assistant).nextStep := by
    show (handleInboundMessage env2 m2 s1).session = _
    rw [e2]
  have hs2i : s2.stepIndex = 2 := by
    rw [hs2, nextStep_stepIndex_of_lt (by simp [hs1i])]
    simp [hs1i]
  have hs2step : s2.step = .confirming_passport :=
    step_confirming_passport_iff.mpr hs2i
  have hs2p : s2.passportData = some (.structured d2) := by rw [hs2]; simp
  -- message 3: manual confirmation of the resubmitted passport
  obtain ⟨M3, hmsg3⟩ : ∃ m, getMessagesForStep s2.step = some m :=
    ⟨_, by rw [hs2step]; rfl⟩
  have e3 := router_conf_passport env3 m3 hs2step hct3
    (handleConfirmation_manual_yes env3 confirmingPassportConfig m3
      hag3 ht3 hyes3 hmsg3)
  have hs3 : s3 = (s2.addToConversationHistory M3.successMessage
      .assistant).nextStep := by
    show (handleInboundMessage env3 m3 s2).session = _
    rw [e3]
    rfl
  have hs3i : s3.stepIndex = 3 := by
    rw [hs3, nextStep_stepIndex_of_lt (by simp [hs2i])]
    simp [hs2i]
  have hs3step : s3.step = .awaiting_driversId :=
    step_awaiting_driversId_iff.mpr hs3i
  have hs3p : s3.passportData = some (.structured d2) := by
    rw [hs3]; simp [hs2p]
  -- message 4: second document, tier-2 extraction succeeds
  have hnm4 : ¬ (s3.awaitingManualInput = true ∧
      getContentType m4 = ContentType.text) := by
    rcases hct4 with h | h <;> simp [h]
  have e4eq : handleInboundMessage env4 m4 s3 =
      { session := ((s3.setDocumentData .driversLicense
            (some (.structured e4))).addToConversationHistory
            (createDocumentSummary e4 .driversLicense) .assistant).nextStep,
        sent := [processingMessage, createDocumentSummary e4 .driversLicense],
        trace := [.docAgentTier, .docMindeeTier] } := by
    rw [router_to_license_pipeline env4 m4 hs3step hct4,
      processDocument_tier2 env4 .driversLicense (getContentType m4) m4
        hnm4 hurl4 hag4 hmind4]
  have hs4 : s4 = ((s3.setDocumentData .driversLicense
      (some (.structured e4))).addToConversationHistory
      (createDocumentSummary e4 .driversLicense) .assistant).nextStep := by
    show (handleInboundMessage env4 m4 s3).session = _
    rw [e4eq]
  have hs4i : s4.stepIndex = 4 := by
    rw [hs4, nextStep_stepIndex_of_lt (by simp [hs3i])]
    simp [hs3i]
  have hs4step : s4.step = .confirming_driversId :=
    step_confirming_driversId_iff.mpr hs4i
  have hs4p : s4.passportData = some (.structured d2) := by
    rw [hs4]; simp [hs3p]
  have hs4d : s4.driversIdData = some (.structured e4) := by rw [hs4]; simp
  exact ⟨hs1step, hs1p, hs1d, hs2step, hs2p, hs3step, hs3p, hs4step,
    hs4p, hs4d⟩

/-- Witness for C8: a concrete reject / resubmit / confirm / second-upload
round trip from `confirming_passport`. -/
theorem c8_reject_resubmit_roundtrip_witness :
    (handleInboundMessage
      { fileUrl := Except.error "e", agent := Except.error (),
        mindee := Except.error (), policy := Except.ok () }
      { hasPhoto := false, hasDocument := false,
        firstEntityIsBotCommand := false, text := some "no" }
      { UserSession.init with
          stepIndex := 2,
          passportData := some (.raw "old") }).session.passportData = none ∧
    (handleInboundMessage
      { fileUrl := Except.ok "u4", agent := Except.error (),
        mindee := Except.ok (.license
          { firstName := "JOHN", lastName := "DOE",
            dateOfBirth := "1990-01-01", licenseNumber := "L77",
            issuedDate := "2018-01-01", expiryDate := "2028-01-01",
            country := "USA", category := "B" }),
        policy := Except.ok () }
      { hasPhoto := true, hasDocument := false,
        firstEntityIsBotCommand := false, text := none }
      (handleInboundMessage
        { fileUrl := Except.error "e", agent := Except.error (),
          mindee := Except.error (), policy := Except.ok () }
        { hasPhoto := false, hasDocument := false,
          firstEntityIsBotCommand := false, text := some "yes" }
        (handleInboundMessage
          { fileUrl := Except.ok "u2", agent := Except.error (),
            mindee := Except.ok (.passport
              { name := "JOHN", surname := "DOE",
                dateOfBirth := "1990-01-01", passportNumber := "P123",
                dateOfIssue := "2015-01-01", dateOfExpiry := "2025-01-01" }),
            policy := Except.ok () }
          { hasPhoto := false, hasDocument := true,
            firstEntityIsBotCommand := false, text := none }
          (handleInboundMessage
            { fileUrl := Except.error "e", agent := Except.error (),
              mindee := Except.error (), policy := Except.ok () }
            { hasPhoto := false, hasDocument := false,
              firstEntityIsBotCommand := false, text := some "no" }
            { UserSession.init with
                stepIndex := 2,
                passportData := some (.raw "old") }).session).session).session).session.step
      = .confirming_driversId ∧
    (handleInboundMessage
      { fileUrl := Except.ok "u4", agent := Except.error (),
        mindee := Except.ok (.license
          { firstName := "JOHN", lastName := "DOE",
            dateOfBirth := "1990-01-01", licenseNumber := "L77",
            issuedDate := "2018-01-01", expiryDate := "2028-01-01",
            country := "USA", category := "B" }),
        policy := Except.ok () }
      { hasPhoto := true, hasDocument := false,
        firstEntityIsBotCommand := false, text := none }
      (handleInboundMessage
        { fileUrl := Except.error "e", agent := Except.error (),
          mindee := Except.error (), policy := Except.ok () }
        { hasPhoto := false, hasDocument := false,
          firstEntityIsBotCommand := false, text := some "yes" }
        (handleInboundMessage
          { fileUrl := Except.ok "u2", agent := Except.error (),
            mindee := Except.ok (.passport
              { name := "JOHN", surname := "DOE",
                dateOfBirth := "1990-01-01", passportNumber := "P123",
                dateOfIssue := "2015-01-01", dateOfExpiry := "2025-01-01" }),
            policy := Except.ok () }
          { hasPhoto := false, hasDocument := true,
            firstEntityIsBotCommand := false, text := none }
          (handleInboundMessage
            { fileUrl := Except.error "e", agent := Except.error (),
              mindee := Except.error (), policy := Except.ok () }
            { hasPhoto := false, hasDocument := false,
              firstEntityIsBotCommand := false, text := some "no" }
            { UserSession.init with
                stepIndex := 2,
                passportData := some (.raw "old") }).session).session).session).session.passportData
      = some (.structured (.passport
          { name := "JOHN", surname := "DOE", dateOfBirth := "1990-01-01",
            passportNumber := "P123", dateOfIssue := "2015-01-01",
            dateOfExpiry := "2025-01-01" })) := by
  have h := c8_reject_resubmit_roundtrip
    { fileUrl := Except.error "e", agent := Except.error (),
      mindee := Except.error (), policy := Except.ok () }
    { fileUrl := Except.ok "u2", agent := Except.error (),
      mindee := Except.ok (.passport
        { name := "JOHN", surname := "DOE", dateOfBirth := "1990-01-01",
          passportNumber := "P123", dateOfIssue := "2015-01-01",
          dateOfExpiry := "2025-01-01" }),
      policy := Except.ok () }
    { fileUrl := Except.error "e", agent := Except.error (),
      mindee := Except.error (), policy := Except.ok () }
    { fileUrl := Except.ok "u4", agent := Except.error (),
      mindee := Except.ok (.license
        { firstName := "JOHN", lastName := "DOE",
          dateOfBirth := "1990-01-01", licenseNumber := "L77",
          issuedDate := "2018-01-01", expiryDate := "2028-01-01",
          country := "USA", category := "B" }),
      policy := Except.ok () }
    { hasPhoto := false, hasDocument := false,
      firstEntityIsBotCommand := false, text := some "no" }
    { hasPhoto := false, hasDocument := true,
      firstEntityIsBotCommand := false, text := none }
    { hasPhoto := false, hasDocument := false,
      firstEntityIsBotCommand := false, text := some "yes" }
    { hasPhoto := true, hasDocument := false,
      firstEntityIsBotCommand := false, text := none }
    (s := { UserSession.init with
              stepIndex := 2, passportData := some (.raw "old") })
    (by decide) (by decide) rfl (by decide) rfl
    (Or.inl (by decide)) rfl rfl rfl
    (by decide) rfl (by decide) rfl
    (Or.inr (by decide)) rfl rfl rfl
  exact ⟨h.2.1, h.2.2.2.2.2.2.2.1, h.2.2.2.2.2.2.2.2.1⟩

/-! ## Claim C2: helper lemmas -/

/-- URL resolution failure: template error, no state change. -/
theorem processDocument_urlError (env dt ct msg) {s : UserSession}
    {e : String}
    (hnm : ¬ (s.awaitingManualInput = true ∧ ct = ContentType.text))
    (hurl : env.fileUrl = .error e) :
    processDocument env dt ct msg s =
      { session := s, sent := [e], trace := [] } := by
  unfold processDocument
  rw [if_neg hnm, hurl]

/-- Tier-1 business failure (`[FAILED]` marker): stripped message, stay. -/
theorem processDocument_tier1_failed (env dt ct msg) {s : UserSession}
    {u : String} {o : AgentOutcome}
    (hnm : ¬ (s.awaitingManualInput = true ∧ ct = ContentType.text))
    (hurl : env.fileUrl = .ok u) (hag : env.agent = .ok o)
    (hf : jsEndsWith o.finalOutput "[FAILED]" = true) :
    processDocument env dt ct msg s =
      { session := applyAgentOutcome s o,
        sent := [processingMessage,
          jsTrim (removeFirst o.finalOutput "[FAILED]")],
        trace := [.docAgentTier] } := by
  unfold processDocument
  rw [if_neg hnm, hurl, hag]
  simp only [hf, if_true]

/-- Tier-1 success: relay the reply and advance. -/
theorem processDocument_tier1_success (env dt ct msg) {s : UserSession}
    {u : String} {o : AgentOutcome}
    (hnm : ¬ (s.awaitingManualInput = true ∧ ct = ContentType.text))
    (hurl : env.fileUrl = .ok u) (hag : env.agent = .ok o)
    (hf : jsEndsWith o.finalOutput "[FAILED]" = false) :
    processDocument env dt ct msg s =
      { session := (applyAgentOutcome s o).nextStep,
        sent := [processingMessage, o.finalOutput],
        trace := [.docAgentTier] } := by
  unfold processDocument
  rw [if_neg hnm, hurl, hag]
  simp only [hf]
  rfl

/-- Agent-parsed acceptance: the generic result. -/
theorem handleConfirmation_agent_yes (env cfg msg) {s : UserSession}
    {o : AgentOutcome} (hag : env.agent = .ok o)
    (hc : jsEndsWith o.finalOutput "[CONFIRMED]" = true) :
    handleConfirmation env cfg msg s =
      some (match cfg.onAccept with
      | some f =>
        { session := (f ((applyAgentOutcome s o).addToConversationHistory
            (jsTrim (removeFirst o.finalOutput "[CONFIRMED]")) .assistant)).1,
          sent := jsTrim (removeFirst o.finalOutput "[CONFIRMED]") ::
            (f ((applyAgentOutcome s o).addToConversationHistory
              (jsTrim (removeFirst o.finalOutput "[CONFIRMED]")) .assistant)).2,
          trace := [] }
      | none =>
        { session := ((applyAgentOutcome s o).addToConversationHistory
            (jsTrim (removeFirst o.finalOutput "[CONFIRMED]")) .assistant).nextStep,
          sent := [jsTrim (removeFirst o.finalOutput "[CONFIRMED]")],
          trace := [] }) := by
  unfold handleConfirmation getAIConfirmation
  rw [hag]
  simp only [hc, if_true]
  cases cfg.onAccept <;> rfl

/-- Agent-parsed rejection: the generic result. -/
theorem handleConfirmation_agent_no (env cfg msg) {s : UserSession}
    {o : AgentOutcome} (hag : env.agent = .ok o)
    (hc : jsEndsWith o.finalOutput "[CONFIRMED]" = false)
    (hr : jsEndsWith o.finalOutput "[REJECTED]" = true) :
    handleConfirmation env cfg msg s =
      some (match cfg.onReject with
      | some f =>
        { session := (f ((applyAgentOutcome s o).addToConversationHistory
            (jsTrim (removeFirst o.finalOutput "[REJECTED]")) .assistant)).1,
          sent := jsTrim (removeFirst o.finalOutput "[REJECTED]") ::
            (f ((applyAgentOutcome s o).addToConversationHistory
              (jsTrim (removeFirst o.finalOutput "[REJECTED]")) .assistant)).2,
          trace := [] }
      | none =>
        { session := ((applyAgentOutcome s o).addToConversationHistory
            (jsTrim (removeFirst o.finalOutput "[REJECTED]")) .assistant).prevStep,
          sent := [jsTrim (removeFirst o.finalOutput "[REJECTED]")],
          trace := [] }) := by
  unfold handleConfirmation getAIConfirmation
  rw [hag]
  simp only [hc, hr, if_true]
  cases cfg.onReject <;> rfl

/-- Markerless agent reply: conversational side answer, no transition. -/
theorem handleConfirmation_agent_answer (env cfg msg) {s : UserSession}
    {o : AgentOutcome} (hag : env.agent = .ok o)
    (hc : jsEndsWith o.finalOutput "[CONFIRMED]" = false)
    (hr : jsEndsWith o.finalOutput "[REJECTED]" = false) :
    handleConfirmation env cfg msg s =
      some { session := (applyAgentOutcome s o).addToConversationHistory
               o.finalOutput .assistant,
             sent := [o.finalOutput], trace := [] } := by
  unfold handleConfirmation getAIConfirmation
  rw [hag]
  simp only [hc, hr]
  rfl

/-- Marker-less manual fallback (agent raised, text not yes/no). -/
theorem handleConfirmation_manual_unparseable (env cfg msg) {s : UserSession}
    {t : String}
    (hag : env.agent = .error ()) (ht : msg.text = some t)
    (hu : guessDecision t = .unparseable) :
    handleConfirmation env cfg msg s =
      some { session := s, sent := [yesNoPrompt],
             trace := [.confManualTier] } := by
  unfold handleConfirmation getAIConfirmation
  rw [hag]
  simp only [ht, Option.getD_some, hu]

/-- A `DocPresenceInv` can be established through the step index. -/
theorem docPresenceInv_intro {r : UserSession}
    (h2 : r.stepIndex = 2 → r.passportData.isSome = true)
    (h4 : r.stepIndex = 4 → r.driversIdData.isSome = true) :
    DocPresenceInv r := by
  constructor
  · intro hstep
    exact h2 (step_confirming_passport_iff.mp hstep)
  · intro hstep
    exact h4 (step_confirming_driversId_iff.mp hstep)

/-- A session whose index is neither 2 nor 4 satisfies the invariant
vacuously. -/
theorem docPresenceInv_of_index {r : UserSession}
    (h2 : r.stepIndex ≠ 2) (h4 : r.stepIndex ≠ 4) : DocPresenceInv r :=
  docPresenceInv_intro (fun h => absurd h h2) (fun h => absurd h h4)

/-- The invariant transfers to a session with the same index whose document
fields only became "more present". -/
theorem docPresenceInv_mono {s r : UserSession} (hinv : DocPresenceInv s)
    (hidx : r.stepIndex = s.stepIndex)
    (hp : s.passportData.isSome = true → r.passportData.isSome = true)
    (hd : s.driversIdData.isSome = true → r.driversIdData.isSome = true) :
    DocPresenceInv r := by
  have hstep : r.step = s.step := by
    unfold UserSession.step
    rw [hidx]
  constructor
  · intro h
    exact hp (hinv.1 (hstep.symm.trans h))
  · intro h
    exact hd (hinv.2 (hstep.symm.trans h))

theorem step_sending_policy_iff {s : UserSession} :
    s.step = .sending_policy ↔ s.stepIndex = 6 := by
  unfold UserSession.step stepAt
  split <;> simp_all

/-- Advancing after having written the `dt` document field. -/
theorem advance_after_write (dt : DocumentType) {x s : UserSession}
    (hidx : x.stepIndex = s.stepIndex)
    (hdoc : (x.docField dt).isSome = true) :
    x.nextStep.stepIndex = s.stepIndex ∨
    (x.nextStep.stepIndex = s.stepIndex + 1 ∧
     (x.nextStep.docField dt).isSome = true) := by
  have hd : (x.nextStep.docField dt).isSome = true := by
    cases dt <;> simpa using hdoc
  rcases Nat.lt_or_ge x.stepIndex 7 with hlt | hge
  · right
    exact ⟨by rw [nextStep_stepIndex_of_lt hlt, hidx], hd⟩
  · left
    have hn : ¬ (x.stepIndex < STEPS.length - 1) := by
      unfold STEPS
      simp only [List.length]
      omega
    unfold UserSession.nextStep
    rw [if_neg hn]
    exact hidx

/-- One pipeline invocation either keeps the step index or advances by one
having ensured the processed document's field is present — provided a
successful non-`[FAILED]` agent call writes the document (tier 1's
side-effect contract). -/
theorem processDocument_step_or_write (env dt ct msg) {s : UserSession}
    (hw : ∀ o, env.agent = .ok o →
      jsEndsWith o.finalOutput "[FAILED]" = false →
      (match dt with
       | DocumentType.passport => o.passportWrite.isSome
       | DocumentType.driversLicense => o.driversWrite.isSome) = true) :
    (processDocument env dt ct msg s).session.stepIndex = s.stepIndex ∨
    ((processDocument env dt ct msg s).session.stepIndex = s.stepIndex + 1 ∧
     ((processDocument env dt ct msg s).session.docField dt).isSome = true) := by
  by_cases hnm : s.awaitingManualInput = true ∧ ct = ContentType.text
  · obtain ⟨hA, hT⟩ := hnm
    subst hT
    rw [processDocument_manual_shortcut env dt msg hA]
    unfold handleManualInput
    exact advance_after_write dt (by simp) (by cases dt <;> simp)
  · cases hurl : env.fileUrl with
    | error e =>
      rw [processDocument_urlError env dt ct msg hnm hurl]
      left
      rfl
    | ok u =>
      cases hag : env.agent with
      | ok o =>
        by_cases hf : jsEndsWith o.finalOutput "[FAILED]" = true
        · rw [processDocument_tier1_failed env dt ct msg hnm hurl hag hf]
          left
          simp
        · simp only [Bool.not_eq_true] at hf
          rw [processDocument_tier1_success env dt ct msg hnm hurl hag hf]
          refine advance_after_write dt (by simp) ?_
          have hwo := hw o hag hf
          cases dt
          · simpa using applyAgentOutcome_passportData_isSome_of_write
              (by simpa using hwo)
          · simpa using applyAgentOutcome_driversIdData_isSome_of_write
              (by simpa using hwo)
      | error v =>
        cases hmind : env.mindee with
        | ok d =>
          rw [processDocument_tier2 env dt ct msg hnm hurl hag hmind]
          exact advance_after_write dt (by simp) (by cases dt <;> simp)
        | error w =>
          rw [processDocument_tier3 env dt ct msg hnm hurl hag hmind]
          left
          simp

/-- The confirmation handler at `confirming_passport` (index 2, passport
present) preserves the document-presence invariant. -/
theorem handleConfirmation_docInv_passport (env msg) {s : UserSession}
    (hi : s.stepIndex = 2) (hp : s.passportData.isSome = true)
    {out} (e : handleConfirmation env confirmingPassportConfig msg s = some out) :
    DocPresenceInv out.session := by
  have hstep : s.step = .confirming_passport :=
    step_confirming_passport_iff.mpr hi
  unfold handleConfirmation getAIConfirmation confirmingPassportConfig at e
  cases hag : env.agent with
  | ok o =>
    rw [hag] at e
    by_cases hc : jsEndsWith o.finalOutput "[CONFIRMED]" = true
    · simp only [hc, if_true] at e
      rw [← Option.some.inj e]
      apply docPresenceInv_of_index
      · rw [nextStep_stepIndex_of_lt (by simp [hi])]
        simp [hi]
      · rw [nextStep_stepIndex_of_lt (by simp [hi])]
        simp [hi]
    · simp only [Bool.not_eq_true] at hc
      by_cases hr : jsEndsWith o.finalOutput "[REJECTED]" = true
      · simp only [hc, hr, if_true] at e
        rw [← Option.some.inj e]
        apply docPresenceInv_of_index
        · rw [prevStep_stepIndex_of_pos (by simp [hi])]
          simp [hi]
        · rw [prevStep_stepIndex_of_pos (by simp [hi])]
          simp [hi]
      · simp only [Bool.not_eq_true] at hr
        simp only [hc, hr] at e
        rw [← Option.some.inj e]
        apply docPresenceInv_intro
        · intro _
          simpa using applyAgentOutcome_passportData_isSome hp
        · intro h
          simp [hi] at h
  | error v =>
    rw [hag] at e
    cases hg : guessDecision (msg.text.getD "") with
    | unparseable =>
      simp only [hg] at e
      rw [← Option.some.inj e]
      exact docPresenceInv_intro (fun _ => hp) (fun h => by simp [hi] at h)
    | yes =>
      simp only [hg] at e
      rw [hstep] at e
      simp only [getMessagesForStep] at e
      rw [← Option.some.inj e]
      apply docPresenceInv_of_index
      · rw [nextStep_stepIndex_of_lt (by simp [hi])]
        simp [hi]
      · rw [nextStep_stepIndex_of_lt (by simp [hi])]
        simp [hi]
    | no =>
      simp only [hg] at e
      rw [hstep] at e
      simp only [getMessagesForStep] at e
      rw [← Option.some.inj e]
      apply docPresenceInv_of_index
      · rw [prevStep_stepIndex_of_pos (by simp [hi])]
        simp [hi]
      · rw [prevStep_stepIndex_of_pos (by simp [hi])]
        simp [hi]

/-- The confirmation handler at `confirming_driversId` (index 4, license
present) preserves the document-presence invariant. -/
theorem handleConfirmation_docInv_driversId (env msg) {s : UserSession}
    (hi : s.stepIndex = 4) (hd : s.driversIdData.isSome = true)
    {out}
    (e : handleConfirmation env confirmingDriversIdConfig msg s = some out) :
    DocPresenceInv out.session := by
  have hstep : s.step = .confirming_driversId :=
    step_confirming_driversId_iff.mpr hi
  unfold handleConfirmation getAIConfirmation confirmingDriversIdConfig at e
  cases hag : env.agent with
  | ok o =>
    rw [hag] at e
    by_cases hc : jsEndsWith o.finalOutput "[CONFIRMED]" = true
    · simp only [hc, if_true] at e
      rw [← Option.some.inj e]
      apply docPresenceInv_of_index
      · rw [nextStep_stepIndex_of_lt (by simp [hi])]
        simp [hi]
      · rw [nextStep_stepIndex_of_lt (by simp [hi])]
        simp [hi]
    · simp only [Bool.not_eq_true] at hc
      by_cases hr : jsEndsWith o.finalOutput "[REJECTED]" = true
      · simp only [hc, hr, if_true] at e
        rw [← Option.some.inj e]
        apply docPresenceInv_of_index
        · rw [prevStep_stepIndex_of_pos (by simp [hi])]
          simp [hi]
        · rw [prevStep_stepIndex_of_pos (by simp [hi])]
          simp [hi]
      · simp only [Bool.not_eq_true] at hr
        simp only [hc, hr] at e
        rw [← Option.some.inj e]
        apply docPresenceInv_intro
        · intro h
          simp [hi] at h
        · intro _
          simpa using applyAgentOutcome_driversIdData_isSome hd
  | error v =>
    rw [hag] at e
    cases hg : guessDecision (msg.text.getD "") with
    | unparseable =>
      simp only [hg] at e
      rw [← Option.some.inj e]
      exact docPresenceInv_intro (fun h => by simp [hi] at h) (fun _ => hd)
    | yes =>
      simp only [hg] at e
      rw [hstep] at e
      simp only [getMessagesForStep] at e
      rw [← Option.some.inj e]
      apply docPresenceInv_of_index
      · rw [nextStep_stepIndex_of_lt (by simp [hi])]
        simp [hi]
      · rw [nextStep_stepIndex_of_lt (by simp [hi])]
        simp [hi]
    | no =>
      simp only [hg] at e
      rw [hstep] at e
      simp only [getMessagesForStep] at e
      rw [← Option.some.inj e]
      apply docPresenceInv_of_index
      · rw [prevStep_stepIndex_of_pos (by simp [hi])]
        simp [hi]
      · rw [prevStep_stepIndex_of_pos (by simp [hi])]
        simp [hi]

/-- The confirmation handler at `confirming_price` (index 5) preserves the
document-presence invariant: every branch lands on index 5, 6 or 7. -/
theorem handleConfirmation_docInv_price (env msg) {s : UserSession}
    (hi : s.stepIndex = 5)
    {out}
    (e : handleConfirmation env (confirmingPriceConfig env) msg s = some out) :
    DocPresenceInv out.session := by
  have hstep : s.step = .confirming_price :=
    step_confirming_price_iff.mpr hi
  unfold handleConfirmation getAIConfirmation confirmingPriceConfig
    sendPolicy at e
  cases hag : env.agent with
  | ok o =>
    rw [hag] at e
    by_cases hc : jsEndsWith o.finalOutput "[CONFIRMED]" = true
    · simp only [hc, if_true] at e
      cases hpol : env.policy with
      | ok w =>
        rw [hpol] at e
        rw [← Option.some.inj e]
        apply docPresenceInv_of_index
        · rw [nextStep_stepIndex_of_lt
            (by rw [nextStep_stepIndex_of_lt (by simp [hi])]; simp [hi])]
          rw [nextStep_stepIndex_of_lt (by simp [hi])]
          simp [hi]
        · rw [nextStep_stepIndex_of_lt
            (by rw [nextStep_stepIndex_of_lt (by simp [hi])]; simp [hi])]
          rw [nextStep_stepIndex_of_lt (by simp [hi])]
          simp [hi]
      | error w =>
        rw [hpol] at e
        rw [← Option.some.inj e]
        apply docPresenceInv_of_index
        · rw [nextStep_stepIndex_of_lt (by simp [hi])]
          simp [hi]
        · rw [nextStep_stepIndex_of_lt (by simp [hi])]
          simp [hi]
    · simp only [Bool.not_eq_true] at hc
      by_cases hr : jsEndsWith o.finalOutput "[REJECTED]" = true
      · simp only [hc, hr, if_true] at e
        rw [← Option.some.inj e]
        exact docPresenceInv_of_index (by simp [hi]) (by simp [hi])
      · simp only [Bool.not_eq_true] at hr
        simp only [hc, hr] at e
        rw [← Option.some.inj e]
        exact docPresenceInv_of_index (by simp [hi]) (by simp [hi])
  | error v =>
    rw [hag] at e
    cases hg : guessDecision (msg.text.getD "") with
    | unparseable =>
      simp only [hg] at e
      rw [← Option.some.inj e]
      exact docPresenceInv_of_index (by simp [hi]) (by simp [hi])
    | yes =>
      simp only [hg] at e
      rw [hstep] at e
      simp only [getMessagesForStep] at e
      cases hpol : env.policy with
      | ok w =>
        rw [hpol] at e
        rw [← Option.some.inj e]
        apply docPresenceInv_of_index
        · rw [nextStep_stepIndex_of_lt
            (by rw [nextStep_stepIndex_of_lt (by simp [hi])]; simp [hi])]
          rw [nextStep_stepIndex_of_lt (by simp [hi])]
          simp [hi]
        · rw [nextStep_stepIndex_of_lt
            (by rw [nextStep_stepIndex_of_lt (by simp [hi])]; simp [hi])]
          rw [nextStep_stepIndex_of_lt (by simp [hi])]
          simp [hi]
      | error w =>
        rw [hpol] at e
        rw [← Option.some.inj e]
        apply docPresenceInv_of_index
        · rw [nextStep_stepIndex_of_lt (by simp [hi])]
          simp [hi]
        · rw [nextStep_stepIndex_of_lt (by simp [hi])]
          simp [hi]
    | no =>
      simp only [hg] at e
      rw [hstep] at e
      simp only [getMessagesForStep] at e
      rw [← Option.some.inj e]
      exact docPresenceInv_of_index (by simp [hi]) (by simp [hi])

/-- Step-handler dispatch preserves the document-presence invariant under
the tier-1 side-effect contract. -/
theorem docInv_runStepHandler (env msg ct) {s : UserSession}
    (hok : StepOk s) (hinv : DocPresenceInv s) (henv : EnvOkFor s env)
    {out} (e : runStepHandler env msg ct s = some out) :
    DocPresenceInv out.session := by
  unfold runStepHandler at e
  cases hs : s.step with
  | start =>
    rw [hs] at e
    cases e
    have hi := step_start_index hok hs
    apply docPresenceInv_of_index
    · rw [nextStep_stepIndex_of_lt (by omega)]
      omega
    · rw [nextStep_stepIndex_of_lt (by omega)]
      omega
  | awaiting_passport =>
    rw [hs] at e
    cases e
    have hi := step_awaiting_passport_iff.mp hs
    have hw := henv.1 hs
    rcases processDocument_step_or_write env .passport ct msg
        (s := s) (fun o ho hf => hw o ho hf) with h | ⟨h1, h2⟩
    · apply docPresenceInv_of_index <;> omega
    · refine docPresenceInv_intro (fun _ => by simpa using h2) ?_
      intro hcontra
      rw [h1, hi] at hcontra
      omega
  | confirming_passport =>
    rw [hs] at e
    exact handleConfirmation_docInv_passport env msg
      (step_confirming_passport_iff.mp hs) (hinv.1 hs) e
  | awaiting_driversId =>
    rw [hs] at e
    cases e
    have hi := step_awaiting_driversId_iff.mp hs
    have hw := henv.2 hs
    rcases processDocument_step_or_write env .driversLicense ct msg
        (s := s) (fun o ho hf => hw o ho hf) with h | ⟨h1, h2⟩
    · apply docPresenceInv_of_index <;> omega
    · refine docPresenceInv_intro ?_ (fun _ => by simpa using h2)
      intro hcontra
      rw [h1, hi] at hcontra
      omega
  | confirming_driversId =>
    rw [hs] at e
    exact handleConfirmation_docInv_driversId env msg
      (step_confirming_driversId_iff.mp hs) (hinv.2 hs) e
  | confirming_price =>
    rw [hs] at e
    exact handleConfirmation_docInv_price env msg
      (step_confirming_price_iff.mp hs) e
  | sending_policy =>
    rw [hs] at e
    cases e
    have hi := step_sending_policy_iff.mp hs
    have hidx : (sendPolicy env s).1.stepIndex = 6 ∨
        (sendPolicy env s).1.stepIndex = 7 := by
      unfold sendPolicy
      cases env.policy with
      | ok w =>
        right
        show s.nextStep.stepIndex = 7
        rw [nextStep_stepIndex_of_lt (by omega)]
        omega
      | error w =>
        left
        exact hi
    rcases hidx with h | h <;>
      (apply docPresenceInv_of_index
       · show (sendPolicy env s).1.stepIndex ≠ 2
         omega
       · show (sendPolicy env s).1.stepIndex ≠ 4
         omega)
  | completed =>
    rw [hs] at e
    cases e
    have hi := step_completed_index hok hs
    apply docPresenceInv_of_index
    · show s.stepIndex ≠ 2
      omega
    · show s.stepIndex ≠ 4
      omega

/-- One full message handling preserves the document-presence invariant
under the tier-1 side-effect contract. -/
theorem docInv_handleInboundMessage (env msg) {s : UserSession}
    (hok : StepOk s) (hinv : DocPresenceInv s) (henv : EnvOkFor s env) :
    DocPresenceInv (handleInboundMessage env msg s).session := by
  simp only [handleInboundMessage]
  split
  · exact hinv
  · split
    · split
      · next out e =>
        exact docInv_runStepHandler env msg (getContentType msg)
          hok hinv henv e
      · exact hinv
    · split
      · split
        · next o heq =>
          refine docPresenceInv_mono hinv (by simp) ?_ ?_
          · intro h
            simpa using applyAgentOutcome_passportData_isSome (by simpa using h)
          · intro h
            simpa using applyAgentOutcome_driversIdData_isSome (by simpa using h)
        · exact docPresenceInv_mono hinv (by simp) (by simp) (by simp)
      · exact hinv

/-! ## Claim C2: verdict -/

/-- C2 counterexample: a reachable two-message trace — `/start`, then a
document upload whose tier-1 agent call succeeds (no `[FAILED]` marker)
without the agent's extraction tool having written anything — leaves the
session at `confirming_passport` with `passportData` absent.  The code
advances on any non-marker reply and cannot enforce the tool side
effect. -/
theorem c2_doc_presence_counterexample :
    Reachable
      (handleInboundMessage
        { fileUrl := Except.ok "https://file",
          agent := Except.ok
            { finalOutput := "Your passport looks fine!", history := [],
              passportWrite := none, driversWrite := none },
          mindee := Except.error (), policy := Except.ok () }
        { hasPhoto := false, hasDocument := true,
          firstEntityIsBotCommand := false, text := none }
        (handleInboundMessage
          { fileUrl := Except.error "e", agent := Except.error (),
            mindee := Except.error (), policy := Except.ok () }
          { hasPhoto := false, hasDocument := false,
            firstEntityIsBotCommand := true, text := some "/start" }
          UserSession.init).session).session ∧
    (handleInboundMessage
        { fileUrl := Except.ok "https://file",
          agent := Except.ok
            { finalOutput := "Your passport looks fine!", history := [],
              passportWrite := none, driversWrite := none },
          mindee := Except.error (), policy := Except.ok () }
        { hasPhoto := false, hasDocument := true,
          firstEntityIsBotCommand := false, text := none }
        (handleInboundMessage
          { fileUrl := Except.error "e", agent := Except.error (),
            mindee := Except.error (), policy := Except.ok () }
          { hasPhoto := false, hasDocument := false,
            firstEntityIsBotCommand := true, text := some "/start" }
          UserSession.init).session).session.step = .confirming_passport ∧
    ¬ DocPresenceInv
      (handleInboundMessage
        { fileUrl := Except.ok "https://file",
          agent := Except.ok
            { finalOutput := "Your passport looks fine!", history := [],
              passportWrite := none, driversWrite := none },
          mindee := Except.error (), policy := Except.ok () }
        { hasPhoto := false, hasDocument := true,
          firstEntityIsBotCommand := false, text := none }
        (handleInboundMessage
          { fileUrl := Except.error "e", agent := Except.error (),
            mindee := Except.error (), policy := Except.ok () }
          { hasPhoto := false, hasDocument := false,
            firstEntityIsBotCommand := true, text := some "/start" }
          UserSession.init).session).session := by
  refine ⟨Reachable.handle _ _ (Reachable.handle _ _ Reachable.init),
    by decide, ?_⟩
  intro hinv
  exact absurd (hinv.1 (by decide)) (by decide)

/-- C2 (amended): the document-presence invariant holds for every session
reachable under the tier-1 side-effect contract: whenever a document-step
agent call succeeds without the `[FAILED]` marker, the agent's extraction
tool has written the expected document into the session.  (The source
relies on this contract; the counterexample shows the code alone cannot
enforce it.) -/
theorem c2_doc_presence_invariant_amended {s : UserSession}
    (h : ReachableOk s) : DocPresenceInv s := by
  have hmain : StepOk s ∧ DocPresenceInv s := by
    induction h with
    | init =>
      constructor
      · unfold StepOk UserSession.init STEPS
        simp
      · exact ⟨fun hc => absurd hc (by decide), fun hc => absurd hc (by decide)⟩
    | handle env msg hr henv ih =>
      exact ⟨stepOk_handleInboundMessage env msg ih.1,
        docInv_handleInboundMessage env msg ih.1 ih.2 henv⟩
  exact hmain.2

/-- Witness for the amended C2: the invariant after handling `/start` on a
fresh session, reached under the (here vacuous) tier-1 contract. -/
theorem c2_doc_presence_invariant_amended_witness :
    DocPresenceInv
      (handleInboundMessage
        { fileUrl := Except.error "e", agent := Except.error (),
          mindee := Except.error (), policy := Except.ok () }
        { hasPhoto := false, hasDocument := false,
          firstEntityIsBotCommand := true, text := some "/start" }
        UserSession.init).session :=
  c2_doc_presence_invariant_amended
    (ReachableOk.handle
      { fileUrl := Except.error "e", agent := Except.error (),
        mindee := Except.error (), policy := Except.ok () }
      { hasPhoto := false, hasDocument := false,
        firstEntityIsBotCommand := true, text := some "/start" }
      ReachableOk.init
      ⟨fun hc => absurd hc (by decide), fun hc => absurd hc (by decide)⟩)
